import Mathlib

/-!
Shallow embedding of the DeepTank aquarium-simulation core
(src/src-tauri/src/simulation/{genome,fish,config,ecosystem}.rs).

Modelling conventions:
* Rust `f32` values are embedded as exact rationals (`ℚ`).  All the
  arithmetic the verified properties depend on (comparisons against
  constants, clamping, modular wrap, sums of absolute differences) is
  exact in `ℚ` and mirrors the source expressions term by term.
* Randomness is embedded as explicit oracle records: each call the code
  makes into the RNG (a `gen_bool`, a `gen_range`, a `gen::<f32>()`, or
  a Gaussian `Normal::sample`) becomes one field of an oracle record,
  universally quantified in the theorems.  Gaussian samples are
  unbounded, so their oracle fields carry no range hypothesis.
* `sqrt` comparisons in the source (`d.sqrt() < c`) are embedded as the
  equivalent comparisons of squares, which is exact for nonnegative
  operands.
* The global atomic id counters (`next_genome_id`, `next_egg_id`,
  `next_fish_id`) are embedded as explicit id arguments / threaded
  counters.
-/

namespace DeepTank

/-- Rust `f32::clamp(lo, hi)`: below `lo` gives `lo`, above `hi` gives `hi`. -/
def ratClamp (x lo hi : ℚ) : ℚ :=
  max lo (min x hi)

/-- Rust `f32::rem_euclid`: `x - m * ⌊x / m⌋`, the representative in `[0, m)`. -/
def ratRemEuclid (x m : ℚ) : ℚ :=
  x - m * (⌊x / m⌋ : ℤ)

theorem ratClamp_mem (x lo hi : ℚ) (h : lo ≤ hi) :
    lo ≤ ratClamp x lo hi ∧ ratClamp x lo hi ≤ hi := by
  unfold ratClamp
  constructor
  · exact le_max_left _ _
  · exact max_le (by exact h) (min_le_right _ _)

theorem ratRemEuclid_mem (x m : ℚ) (hm : 0 < m) :
    0 ≤ ratRemEuclid x m ∧ ratRemEuclid x m < m := by
  unfold ratRemEuclid
  have h1 : (⌊x / m⌋ : ℚ) ≤ x / m := Int.floor_le _
  have h2 : x / m < (⌊x / m⌋ : ℚ) + 1 := Int.lt_floor_add_one _
  constructor
  · have := mul_le_mul_of_nonneg_left h1 (le_of_lt hm)
    have hx : m * (x / m) = x := by field_simp
    linarith [hx ▸ this]
  · have := mul_lt_mul_of_pos_left h2 hm
    have hx : m * (x / m) = x := by field_simp
    nlinarith

theorem ratRemEuclid_add_int_mul (x m : ℚ) (k : ℤ) (hm : 0 < m) :
    ratRemEuclid (x + m * k) m = ratRemEuclid x m := by
  unfold ratRemEuclid
  have : (x + m * k) / m = x / m + k := by field_simp; ring
  rw [this, Int.floor_add_int]
  push_cast
  ring

-- ───────────────────────── Genome model (genome.rs) ─────────────────────────

/-- `Sex` (genome.rs). -/
inductive Sex where
  | Male
  | Female
  deriving DecidableEq

/-- `PatternGene` (genome.rs): one categorical variant with sub-parameters. -/
inductive PatternGene where
  | Solid
  | Striped (angle : ℚ)
  | Spotted (density : ℚ)
  | Gradient (direction : ℚ)
  | Bicolor (split : ℚ)
  deriving DecidableEq

/-- `PatternGene::type_index` (genome.rs). -/
def PatternGene.typeIndex : PatternGene → ℕ
  | .Solid => 0
  | .Striped _ => 1
  | .Spotted _ => 2
  | .Gradient _ => 3
  | .Bicolor _ => 4

/-- `FishGenome` (genome.rs): identity plus the full continuous trait vector. -/
structure FishGenome where
  id : ℕ
  generation : ℕ
  parent_a : Option ℕ
  parent_b : Option ℕ
  sex : Sex
  base_hue : ℚ
  saturation : ℚ
  lightness : ℚ
  body_length : ℚ
  body_width : ℚ
  tail_size : ℚ
  dorsal_fin_size : ℚ
  pectoral_fin_size : ℚ
  pattern : PatternGene
  pattern_intensity : ℚ
  pattern_color_offset : ℚ
  eye_size : ℚ
  speed : ℚ
  aggression : ℚ
  school_affinity : ℚ
  curiosity : ℚ
  boldness : ℚ
  metabolism : ℚ
  fertility : ℚ
  lifespan_factor : ℚ
  maturity_age : ℚ
  disease_resistance : ℚ
  deriving DecidableEq

/-- `hue_distance` (genome.rs): circular distance on the 0–360 colour wheel. -/
def hueDistance (a b : ℚ) : ℚ :=
  min |a - b| (360 - |a - b|)

/-- `pattern_distance` (genome.rs). -/
def patternDistance (a b : PatternGene) : ℚ :=
  if a.typeIndex ≠ b.typeIndex then 1
  else
    match a, b with
    | .Solid, .Solid => 0
    | .Striped x, .Striped y => |x - y| / 180
    | .Spotted x, .Spotted y => |x - y| / (8/10)
    | .Gradient x, .Gradient y => hueDistance x y / 180
    | .Bicolor x, .Bicolor y => |x - y| / (4/10)
    | _, _ => 1

/-- `genome_distance` (genome.rs): weighted sum over appearance and
behaviour traits, the sole compatibility metric. -/
def genomeDistance (a b : FishGenome) : ℚ :=
  hueDistance a.base_hue b.base_hue / 180 * 3
    + |a.saturation - b.saturation| * (15/10)
    + |a.body_length - b.body_length| / (14/10) * 2
    + |a.body_width - b.body_width| * 1
    + patternDistance a.pattern b.pattern * (25/10)
    + |a.pattern_intensity - b.pattern_intensity| * 1
    + |a.speed - b.speed| / (15/10) * (5/10)
    + |a.aggression - b.aggression| * (5/10)
    + |a.school_affinity - b.school_affinity| * (5/10)
    + |a.disease_resistance - b.disease_resistance| * (3/10)

-- ─────────────────── Inheritance with mutation (genome.rs) ──────────────────

/-- RNG outcomes consumed by one `inherit_trait` call: the 60% dominant
roll, the parent pick, the blend weight `w ∈ [0.3,0.7)`, the mutation
roll in `[0,1)`, and the Gaussian sample (unbounded). -/
structure TraitRand where
  dominant : Bool
  pickA : Bool
  w : ℚ
  mutRoll : ℚ
  gauss : ℚ
  deriving DecidableEq

/-- `inherit_trait` (genome.rs): dominant (60%) or blended inheritance,
then an optional large (σ = 20% of range) or small (σ = 5% of range)
Gaussian mutation, clamped to `[min, max]`.  The Gaussian sample is the
oracle field `r.gauss`, scaled by σ exactly as the source scales it. -/
def inheritTrait (a b lo hi : ℚ) (r : TraitRand) (mutationScale rateLarge rateSmall : ℚ) : ℚ :=
  let base := if r.dominant then (if r.pickA then a else b)
              else a * r.w + b * (1 - r.w)
  let range := hi - lo
  if range ≤ 0 then ratClamp base lo hi
  else
    let mutated :=
      if r.mutRoll < rateLarge * mutationScale then
        base + (2/10 * range) * r.gauss
      else if r.mutRoll < (rateLarge + rateSmall) * mutationScale then
        base + (5/100 * range) * r.gauss
      else base
    ratClamp mutated lo hi

/-- RNG outcomes consumed by one `inherit_hue` call: dominant roll,
parent pick, blend weight, mutation roll, and the uniform hue deltas
drawn from `gen_range(-36.0..36.0)` / `gen_range(-9.0..9.0)`. -/
structure HueRand where
  dominant : Bool
  pickA : Bool
  w : ℚ
  mutRoll : ℚ
  largeDelta : ℚ
  smallDelta : ℚ
  deriving DecidableEq

/-- The shortest signed arc from `a` to `b` on the colour wheel
(the `diff` computation opening `inherit_hue`, genome.rs). -/
def hueSignedDiff (a b : ℚ) : ℚ :=
  let diff := b - a
  let diff := if diff > 180 then diff - 360 else diff
  if diff < -180 then diff + 360 else diff

/-- The blend branch of `inherit_hue` (genome.rs): `a + diff * w` along
the shortest arc. -/
def hueBlend (a b w : ℚ) : ℚ :=
  a + hueSignedDiff a b * w

/-- `inherit_hue` (genome.rs): circular blending, optional uniform hue
mutation, wrapped by `rem_euclid(360.0)`. -/
def inheritHue (a b : ℚ) (r : HueRand) (mutationScale rateLarge rateSmall : ℚ) : ℚ :=
  let base := if r.dominant then (if r.pickA then a else b)
              else hueBlend a b r.w
  let mutated :=
    if r.mutRoll < rateLarge * mutationScale then base + r.largeDelta
    else if r.mutRoll < (rateLarge + rateSmall) * mutationScale then base + r.smallDelta
    else base
  ratRemEuclid mutated 360

/-- RNG outcomes consumed by one `inherit_pattern` call: the branch
roll, the fresh pattern produced by `PatternGene::random` (oracle),
the parent pick, and the sub-parameter perturbation draw. -/
structure PatternRand where
  roll : ℚ
  newPat : PatternGene
  pickA : Bool
  perturb : ℚ
  deriving DecidableEq

/-- `inherit_pattern` (genome.rs): new variant (10%), perturbed copy
(20%), or verbatim copy (70%). -/
def inheritPattern (a b : PatternGene) (r : PatternRand) : PatternGene :=
  if r.roll < 10/100 then r.newPat
  else if r.roll < 30/100 then
    let base := if r.pickA then a else b
    match base with
    | .Solid => .Solid
    | .Striped angle => .Striped (ratClamp (angle + r.perturb) 0 180)
    | .Spotted density => .Spotted (ratClamp (density + r.perturb) (2/10) 1)
    | .Gradient direction => .Gradient (ratRemEuclid (direction + r.perturb) 360)
    | .Bicolor split => .Bicolor (ratClamp (split + r.perturb) (3/10) (7/10))
  else if r.pickA then a else b

/-- The RNG outcomes consumed by one `FishGenome::inherit` call: the
sex coin plus one oracle record per inherited trait, in source order. -/
structure InheritRand where
  sexMale : Bool
  hue : HueRand
  saturation : TraitRand
  lightness : TraitRand
  body_length : TraitRand
  body_width : TraitRand
  tail_size : TraitRand
  dorsal_fin_size : TraitRand
  pectoral_fin_size : TraitRand
  pat : PatternRand
  pattern_intensity : TraitRand
  pattern_color_offset : TraitRand
  eye_size : TraitRand
  speed : TraitRand
  aggression : TraitRand
  school_affinity : TraitRand
  curiosity : TraitRand
  boldness : TraitRand
  metabolism : TraitRand
  fertility : TraitRand
  lifespan_factor : TraitRand
  maturity_age : TraitRand
  disease_resistance : TraitRand


/-- `FishGenome::inherit` (genome.rs).  `childId` is the fresh id drawn
from the global atomic `next_genome_id` counter, made explicit. -/
def inherit (pa pb : FishGenome) (r : InheritRand) (inbred : Bool)
    (rateLarge rateSmall : ℚ) (childId : ℕ) : FishGenome :=
  let ms : ℚ := if inbred then 15/10 else 1
  let child : FishGenome :=
    { id := childId
      generation := max pa.generation pb.generation + 1
      parent_a := some pa.id
      parent_b := some pb.id
      sex := if r.sexMale then .Male else .Female
      base_hue := inheritHue pa.base_hue pb.base_hue r.hue ms rateLarge rateSmall
      saturation := inheritTrait pa.saturation pb.saturation (3/10) 1 r.saturation ms rateLarge rateSmall
      lightness := inheritTrait pa.lightness pb.lightness (3/10) (7/10) r.lightness ms rateLarge rateSmall
      body_length := inheritTrait pa.body_length pb.body_length (6/10) 2 r.body_length ms rateLarge rateSmall
      body_width := inheritTrait pa.body_width pb.body_width (5/10) (15/10) r.body_width ms rateLarge rateSmall
      tail_size := inheritTrait pa.tail_size pb.tail_size (5/10) 2 r.tail_size ms rateLarge rateSmall
      dorsal_fin_size := inheritTrait pa.dorsal_fin_size pb.dorsal_fin_size (3/10) (15/10) r.dorsal_fin_size ms rateLarge rateSmall
      pectoral_fin_size := inheritTrait pa.pectoral_fin_size pb.pectoral_fin_size (3/10) (15/10) r.pectoral_fin_size ms rateLarge rateSmall
      pattern := inheritPattern pa.pattern pb.pattern r.pat
      pattern_intensity := inheritTrait pa.pattern_intensity pb.pattern_intensity 0 1 r.pattern_intensity ms rateLarge rateSmall
      pattern_color_offset := inheritTrait pa.pattern_color_offset pb.pattern_color_offset 0 180 r.pattern_color_offset ms rateLarge rateSmall
      eye_size := inheritTrait pa.eye_size pb.eye_size (5/10) (15/10) r.eye_size ms rateLarge rateSmall
      speed := inheritTrait pa.speed pb.speed (5/10) 2 r.speed ms rateLarge rateSmall
      aggression := inheritTrait pa.aggression pb.aggression 0 1 r.aggression ms rateLarge rateSmall
      school_affinity := inheritTrait pa.school_affinity pb.school_affinity 0 1 r.school_affinity ms rateLarge rateSmall
      curiosity := inheritTrait pa.curiosity pb.curiosity 0 1 r.curiosity ms rateLarge rateSmall
      boldness := inheritTrait pa.boldness pb.boldness 0 1 r.boldness ms rateLarge rateSmall
      metabolism := inheritTrait pa.metabolism pb.metabolism (5/10) 2 r.metabolism ms rateLarge rateSmall
      fertility := inheritTrait pa.fertility pb.fertility (3/10) 1 r.fertility ms rateLarge rateSmall
      lifespan_factor := inheritTrait pa.lifespan_factor pb.lifespan_factor (5/10) 2 r.lifespan_factor ms rateLarge rateSmall
      maturity_age := inheritTrait pa.maturity_age pb.maturity_age (3/10) (7/10) r.maturity_age ms rateLarge rateSmall
      disease_resistance := inheritTrait pa.disease_resistance pb.disease_resistance 0 1 r.disease_resistance ms rateLarge rateSmall }
  -- Inbreeding penalties (applied after the per-trait clamping)
  if inbred then
    { child with
        lifespan_factor := child.lifespan_factor * (85/100)
        fertility := child.fertility * (90/100) }
  else child

-- ──────────────────────── Agent model (fish.rs, config.rs) ──────────────────

/-- `BehaviorState` (fish.rs). -/
inductive BehaviorState where
  | Swimming
  | Foraging
  | Fleeing
  | Satiated
  | Courting
  | Resting
  | Hunting
  | Dying
  deriving DecidableEq

/-- `SimulationConfig` (config.rs), restricted to the fields read by the
operations modelled here; the remaining fields (boids weights, audio,
persistence, …) are not consulted by any modelled code path. -/
structure SimulationConfig where
  base_carrying_capacity : ℕ
  hunger_rate : ℚ
  fertility_scale : ℚ
  reproduction_cooldown : ℕ
  mutation_rate_small : ℚ
  mutation_rate_large : ℚ
  species_threshold : ℚ
  species_min_members : ℕ
  day_night_cycle : Bool
  tank_width : ℚ
  tank_height : ℚ
  egg_hatch_time : ℕ
  juvenile_duration : ℕ
  deriving DecidableEq

/-- `BASE_LIFESPAN` (ecosystem.rs). -/
def BASE_LIFESPAN : ℕ := 20000

/-- `Fish` (fish.rs), restricted to the fields read or written by the
operations modelled here (`eat`, `can_reproduce`, `update_behavior`,
the reproduction/egg pipeline and force-breed); the remaining fields
(`z`, `heading`, `prev_force_*`, hunting/territory/disease bookkeeping,
naming) are not consulted by any modelled code path. -/
structure Fish where
  id : ℕ
  genome_id : ℕ
  x : ℚ
  y : ℚ
  vx : ℚ
  vy : ℚ
  age : ℕ
  hunger : ℚ
  health : ℚ
  energy : ℚ
  behavior : BehaviorState
  meals_eaten : ℕ
  last_reproduced_tick : Option ℕ
  is_alive : Bool
  satiated_timer : ℕ
  courting_partner : Option ℕ
  courting_timer : ℕ
  dying_timer : ℕ
  starvation_ticks : ℕ
  fleeing_from : Option ℕ
  is_juvenile : Bool
  juvenile_timer : ℕ
  stress : ℚ
  tap_flee_timer : ℕ
  deriving DecidableEq

/-- `Fish::new` (fish.rs).  `id` is the fresh id drawn from the global
atomic `next_fish_id` counter, and `vx`/`vy` stand for the two
`gen_range(-1.0..1.0)` draws, both made explicit. -/
def fishNew (id gid : ℕ) (x y vx vy : ℚ) : Fish :=
  { id := id, genome_id := gid, x := x, y := y, vx := vx, vy := vy
    age := 0, hunger := 3/10, health := 1, energy := 1
    behavior := .Swimming, meals_eaten := 0, last_reproduced_tick := none
    is_alive := true, satiated_timer := 0, courting_partner := none
    courting_timer := 0, dying_timer := 0, starvation_ticks := 0
    fleeing_from := none, is_juvenile := false, juvenile_timer := 0
    stress := 0, tap_flee_timer := 0 }

/-- `Fish::age_fraction` (fish.rs): `max_age` is the `f32 → u32`
truncating cast of `base_lifespan * lifespan_factor`. -/
def ageFraction (f : Fish) (g : FishGenome) (baseLifespan : ℕ) : ℚ :=
  let maxAge : ℕ := (⌊(baseLifespan : ℚ) * g.lifespan_factor⌋).toNat
  if maxAge = 0 then 1 else (f.age : ℚ) / (maxAge : ℚ)

/-- `Fish::eat` (fish.rs). -/
def eat (f : Fish) : Fish :=
  { f with hunger := max (f.hunger - 3/10) 0
           meals_eaten := f.meals_eaten + 1
           energy := min (f.energy + 1/10) 1
           behavior := .Satiated
           satiated_timer := 0 }

/-- `Fish::can_reproduce` (fish.rs). -/
def canReproduce (f : Fish) (g : FishGenome) (tick : ℕ) (cfg : SimulationConfig)
    (baseLifespan : ℕ) (waterQuality : ℚ) : Bool :=
  let ageFrac := ageFraction f g baseLifespan
  f.is_alive && !f.is_juvenile
    && decide (f.hunger < 2/5)
    && decide (ageFrac > g.maturity_age)
    && decide (ageFrac < 17/20)
    && decide (waterQuality > 2/5)
    && (match f.last_reproduced_tick with
        | some t => decide (tick - t > cfg.reproduction_cooldown)
        | none => true)

-- `Fish::update_behavior` (fish.rs) is embedded as a composition of
-- named stages, one per contiguous block of the source body, applied in
-- source order.  `speed` stands for `sqrt(vx² + vy²)` (irrational in
-- general), supplied as an oracle value.

/-- update_behavior: `self.age += 1`. -/
def stageAging (f : Fish) : Fish :=
  { f with age := f.age + 1 }

/-- update_behavior: hunger increase. -/
def stageHunger (f : Fish) (g : FishGenome) (cfg : SimulationConfig) : Fish :=
  { f with hunger := min (f.hunger + cfg.hunger_rate * g.metabolism) 1 }

/-- update_behavior: energy depletion from movement plus slow-speed recovery. -/
def stageEnergy (f : Fish) (g : FishGenome) (speed : ℚ) : Fish :=
  let f := { f with energy := max (f.energy - speed * (1/10000) * g.metabolism) 0 }
  if speed < 1/2 then { f with energy := min (f.energy + 3/10000) 1 } else f

/-- update_behavior: water-quality health effects (three thresholds). -/
def stageWaterHealth (f : Fish) (waterQuality : ℚ) : Fish :=
  let f := if waterQuality < 3/5 then
             { f with health := f.health - 1/10000 * (3/5 - waterQuality) } else f
  let f := if waterQuality < 2/5 then { f with health := f.health - 3/10000 } else f
  if waterQuality < 1/5 then { f with health := f.health - 1/1000 } else f

/-- update_behavior: elder health degradation. -/
def stageElder (f : Fish) (waterQuality ageFrac : ℚ) : Fish :=
  if ageFrac > 17/20 then
    { f with health := f.health - 5/100000 * (1 + (1 - waterQuality)) } else f

/-- update_behavior: juvenile growth. -/
def stageJuvenile (f : Fish) (cfg : SimulationConfig) : Fish :=
  if f.is_juvenile then
    let f := { f with juvenile_timer := f.juvenile_timer + 1 }
    if f.juvenile_timer ≥ cfg.juvenile_duration then { f with is_juvenile := false } else f
  else f

/-- update_behavior: stress decay and stress damage. -/
def stageStress (f : Fish) : Fish :=
  let f := if f.stress > 0 then { f with stress := max (f.stress - 1/1000) 0 } else f
  if f.stress > 1/2 then { f with health := f.health - 2/10000 } else f

/-- update_behavior: tap-flee timer countdown. -/
def stageTapFlee (f : Fish) : Fish :=
  if f.tap_flee_timer > 0 then
    let f := { f with tap_flee_timer := f.tap_flee_timer - 1 }
    if f.tap_flee_timer = 0 ∧ f.behavior = .Fleeing ∧ f.fleeing_from = none then
      { f with behavior := .Swimming }
    else f
  else f

/-- update_behavior: starvation tracking. -/
def stageStarvation (f : Fish) : Fish :=
  if f.hunger ≥ 1 then { f with starvation_ticks := f.starvation_ticks + 1 }
  else { f with starvation_ticks := 0 }

/-- update_behavior: `self.health = self.health.clamp(0.0, 1.0)`. -/
def stageClampHealth (f : Fish) : Fish :=
  { f with health := ratClamp f.health 0 1 }

/-- update_behavior: the any-state → Dying transition guard. -/
def dyingCheck (f : Fish) (ageFrac : ℚ) : Fish :=
  if f.health ≤ 0 ∨ ageFrac ≥ 1 ∨ f.starvation_ticks ≥ 200 then
    (if f.behavior ≠ .Dying then { f with behavior := .Dying, dying_timer := 0 } else f)
  else f

/-- update_behavior: the per-state `match` following the dying check. -/
def stateMatch (f : Fish) (g : FishGenome) (cfg : SimulationConfig)
    (hasNearbyPredator : Bool) (hasNearbyMate : Option ℕ)
    (timeOfDay : ℚ) : Fish :=
  match f.behavior with
  | .Dying =>
      let f := { f with dying_timer := f.dying_timer + 1 }
      if f.dying_timer ≥ 90 then { f with is_alive := false } else f
  | .Hunting => f
  | .Swimming =>
      let is_night := timeOfDay ≥ 21 ∨ timeOfDay < 5
      let is_nocturnal := g.boldness > 7/10
      if hasNearbyPredator then { f with behavior := .Fleeing }
      else if f.hunger > 3/5 then { f with behavior := .Foraging }
      else if f.energy < 1/5 then { f with behavior := .Resting }
      else if is_night ∧ ¬is_nocturnal ∧ cfg.day_night_cycle then
        (if f.age % 5 = 0 then { f with behavior := .Resting } else f)
      else f
  | .Foraging =>
      if hasNearbyPredator then { f with behavior := .Fleeing }
      else if f.hunger < 3/10 then { f with behavior := .Swimming } else f
  | .Fleeing =>
      if ¬hasNearbyPredator then { f with behavior := .Swimming, fleeing_from := none } else f
  | .Satiated =>
      let f := { f with satiated_timer := f.satiated_timer + 1 }
      if f.satiated_timer > 60 then
        match hasNearbyMate with
        | some mateId => { f with behavior := .Courting, courting_partner := some mateId,
                                  courting_timer := 0 }
        | none => { f with behavior := .Swimming }
      else f
  | .Courting =>
      if hasNearbyPredator then
        { f with behavior := .Fleeing, courting_partner := none, courting_timer := 0 }
      else
        let f := { f with courting_timer := f.courting_timer + 1 }
        if f.courting_timer ≥ 120 then
          { f with behavior := .Swimming, courting_partner := none, courting_timer := 0 }
        else f
  | .Resting =>
      let f := if f.y < cfg.tank_height * (7/10) then { f with vy := f.vy + 1/100 } else f
      let f := { f with energy := min (f.energy + 1/1000) 1 }
      if f.energy > 1/2 then { f with behavior := .Swimming } else f

/-- update_behavior: the state transitions — the any-state → Dying check
followed by the per-state match. -/
def stageTransitions (f : Fish) (g : FishGenome) (cfg : SimulationConfig)
    (hasNearbyPredator : Bool) (hasNearbyMate : Option ℕ)
    (ageFrac timeOfDay : ℚ) : Fish :=
  stateMatch (dyingCheck f ageFrac) g cfg hasNearbyPredator hasNearbyMate timeOfDay

/-- `Fish::update_behavior` (fish.rs): the stages above in source
order; `age_frac` is computed once at entry from the pre-update age. -/
def updateBehavior (f : Fish) (g : FishGenome) (cfg : SimulationConfig) (_tick : ℕ)
    (hasNearbyPredator : Bool) (hasNearbyMate : Option ℕ) (baseLifespan : ℕ)
    (waterQuality timeOfDay speed : ℚ) : Fish :=
  let ageFrac := ageFraction f g baseLifespan
  let f := stageAging f
  let f := stageHunger f g cfg
  let f := stageEnergy f g speed
  let f := stageWaterHealth f waterQuality
  let f := stageElder f waterQuality ageFrac
  let f := stageJuvenile f cfg
  let f := stageStress f
  let f := stageTapFlee f
  let f := stageStarvation f
  let f := stageClampHealth f
  stageTransitions f g cfg hasNearbyPredator hasNearbyMate ageFrac timeOfDay

-- ───────────────────── Ecosystem orchestrator (ecosystem.rs) ─────────────────

/-- `Egg` (ecosystem.rs). -/
structure Egg where
  id : ℕ
  genome_id : ℕ
  x : ℚ
  y : ℚ
  age : ℕ
  parent_a_genome : ℕ
  parent_b_genome : ℕ
  deriving DecidableEq

/-- `Decoration` (ecosystem.rs), restricted to the position fields read
by the modelled operations (egg placement); type/scale/flip are only
rendered. -/
structure Decoration where
  x : ℚ
  y : ℚ
  deriving DecidableEq

/-- `SimEvent` (ecosystem.rs), restricted to the variants emitted by the
modelled operations (`Birth` by egg hatching, `NewSpecies`/`Extinction`
by species detection); the other variants are emitted by unmodelled
pipeline steps. -/
inductive SimEvent where
  | Birth (fish_id genome_id parent_a parent_b : ℕ)
  | NewSpecies (species_id : ℕ)
  | Extinction (species_id : ℕ)
  deriving DecidableEq

/-- `Species` (ecosystem.rs). -/
structure Species where
  id : ℕ
  name : Option String
  description : Option String
  discovered_at_tick : ℕ
  extinct_at_tick : Option ℕ
  centroid_hue : ℚ
  centroid_speed : ℚ
  centroid_size : ℚ
  centroid_pattern : String
  member_count : ℕ
  member_genome_ids : List ℕ
  deriving DecidableEq

/-- The genome table `HashMap<u32, FishGenome>`, embedded as an
association list: `insert` shadows, `lookup` returns the most recent
binding — the map semantics of the source. -/
def GenomeTable := List (ℕ × FishGenome)

/-- `HashMap::get`. -/
def lookupG (t : GenomeTable) (k : ℕ) : Option FishGenome :=
  (List.find? (fun p => p.1 == k) t).map Prod.snd

/-- `HashMap::insert`. -/
def insertG (t : GenomeTable) (k : ℕ) (v : FishGenome) : GenomeTable :=
  (k, v) :: t

/-- The fields of `EcosystemManager` (ecosystem.rs) read or written by
the modelled operations; food/bubble/timer fields belong to unmodelled
steps. -/
structure EcoState where
  eggs : List Egg
  water_quality : ℚ
  species : List Species
  events : List SimEvent
  decorations : List Decoration
  next_species_id : ℕ
  deriving DecidableEq

instance : Inhabited Fish := ⟨fishNew 0 0 0 0 0 0⟩

instance : Inhabited FishGenome :=
  ⟨{ id := 0, generation := 0, parent_a := none, parent_b := none, sex := .Male
     base_hue := 0, saturation := 0, lightness := 0, body_length := 0
     body_width := 0, tail_size := 0, dorsal_fin_size := 0
     pectoral_fin_size := 0, pattern := .Solid, pattern_intensity := 0
     pattern_color_offset := 0, eye_size := 0, speed := 0, aggression := 0
     school_affinity := 0, curiosity := 0, boldness := 0, metabolism := 0
     fertility := 0, lifespan_factor := 0, maturity_age := 0
     disease_resistance := 0 }⟩

instance : Inhabited Egg :=
  ⟨{ id := 0, genome_id := 0, x := 0, y := 0, age := 0
     parent_a_genome := 0, parent_b_genome := 0 }⟩

/-- `(config.base_carrying_capacity as f32 * water_quality) as usize`
(ecosystem.rs, process_reproduction): truncating cast, negatives to 0. -/
def effectiveCapacity (cfg : SimulationConfig) (waterQuality : ℚ) : ℕ :=
  (⌊(cfg.base_carrying_capacity : ℚ) * waterQuality⌋).toNat

/-- The egg-placement scan shared verbatim by `process_reproduction` and
`force_breed` (ecosystem.rs): nearest decoration within 200 units of the
pair, else the sand-floor default.  The source compares Euclidean
distances `d.sqrt()`; this embedding compares the squares, which is
equivalent for nonnegative distances (`best_dist = f32::MAX` becomes
the `none` accumulator). -/
def eggPlacementY (decorations : List Decoration) (midX fishY defaultY : ℚ) : ℚ :=
  (decorations.foldl (fun (acc : Option ℚ × ℚ) dec =>
    let dSq := (dec.x - midX) ^ 2 + (dec.y - fishY) ^ 2
    let better : Bool := match acc.1 with
      | none => true
      | some b => decide (dSq < b)
    if better ∧ dSq < 200 ^ 2 then (some dSq, dec.y) else acc)
    (none, defaultY)).2

/-- The RNG outcomes consumed per candidate pair in one
`process_reproduction` iteration: the fertility roll (`gen::<f32>()`)
and the inheritance draws. -/
structure PairRand where
  fertilityRoll : ℚ
  inh : InheritRand

/-- The shared-parent inbreeding check (ecosystem.rs, lines 880–884 and
1352–1356). -/
def inbredCheck (ga gb : FishGenome) : Bool :=
  ga.parent_a.isSome
    && (ga.parent_a == gb.parent_a || ga.parent_a == gb.parent_b
        || ga.parent_b == gb.parent_a || ga.parent_b == gb.parent_b)

/-- Accumulator of the `process_reproduction` loop: the fish list, the
`reproduced` id list, the `new_eggs` buffer, and the two global id
counters made explicit. -/
structure ReproAcc where
  fish : List Fish
  reproduced : List ℕ
  newEggs : List (Egg × FishGenome)
  nextGenomeId : ℕ
  nextEggId : ℕ

/-- The successful-courtship body of one `process_reproduction` loop
iteration (ecosystem.rs): inherit a child genome, place the egg, mark
both parents, and buffer the new egg. -/
def reproAccPush (cfg : SimulationConfig) (tick : ℕ)
    (decorations : List Decoration) (rand : ℕ → PairRand) (acc : ReproAcc)
    (i partnerIdx partnerId : ℕ) (ga gb : FishGenome) : ReproAcc :=
  let fish := acc.fish
  let fi := fish.getD i default
  let inbred := inbredCheck ga gb
  let child := inherit ga gb (rand i).inh inbred
    cfg.mutation_rate_large cfg.mutation_rate_small acc.nextGenomeId
  let midX := (fi.x + (fish.getD partnerIdx default).x) / 2
  let eggY := eggPlacementY decorations midX fi.y (cfg.tank_height - 40)
  let egg : Egg :=
    { id := acc.nextEggId, genome_id := child.id, x := midX, y := eggY
      age := 0, parent_a_genome := ga.id, parent_b_genome := gb.id }
  let reproduced := acc.reproduced ++ [fi.id, partnerId]
  let fish := fish.set i
    { (fish.getD i default) with last_reproduced_tick := some tick }
  let fish := fish.set partnerIdx
    { (fish.getD partnerIdx default) with last_reproduced_tick := some tick }
  let fish := fish.set i
    { (fish.getD i default) with behavior := .Swimming, courting_partner := none }
  let fish := fish.set partnerIdx
    { (fish.getD partnerIdx default) with behavior := .Swimming, courting_partner := none }
  { fish := fish, reproduced := reproduced
    newEggs := acc.newEggs ++ [(egg, child)]
    nextGenomeId := acc.nextGenomeId + 1, nextEggId := acc.nextEggId + 1 }

/-- The `for i in 0..fish.len()` loop of `process_reproduction`
(ecosystem.rs): early `return`/`break` is modelled by returning the
accumulator without recursing. -/
def reproLoop (cfg : SimulationConfig) (tick : ℕ) (decorations : List Decoration)
    (genomes : GenomeTable) (rand : ℕ → PairRand) (eggs0Len cap : ℕ) :
    List ℕ → ReproAcc → ReproAcc
  | [], acc => acc
  | i :: rest, acc =>
    let fish := acc.fish
    let fi := fish.getD i default
    if ¬(fi.behavior = .Courting) ∨ fi.courting_timer < 90 then
      reproLoop cfg tick decorations genomes rand eggs0Len cap rest acc
    else match fi.courting_partner with
    | none => reproLoop cfg tick decorations genomes rand eggs0Len cap rest acc
    | some partnerId =>
      if acc.reproduced.contains fi.id ∨ acc.reproduced.contains partnerId then
        reproLoop cfg tick decorations genomes rand eggs0Len cap rest acc
      else match fish.findIdx? (fun f => f.id == partnerId) with
      | none => reproLoop cfg tick decorations genomes rand eggs0Len cap rest acc
      | some partnerIdx =>
        match lookupG genomes fi.genome_id with
        | none => reproLoop cfg tick decorations genomes rand eggs0Len cap rest acc
        | some ga =>
          match lookupG genomes (fish.getD partnerIdx default).genome_id with
          | none => reproLoop cfg tick decorations genomes rand eggs0Len cap rest acc
          | some gb =>
            let fertilityAvg := (ga.fertility + gb.fertility) / 2
            if (rand i).fertilityRoll > fertilityAvg * cfg.fertility_scale then
              reproLoop cfg tick decorations genomes rand eggs0Len cap rest acc
            else
              let acc := reproAccPush cfg tick decorations rand acc i partnerIdx partnerId ga gb
              if acc.fish.length + eggs0Len + acc.newEggs.length ≥ cap then acc
              else reproLoop cfg tick decorations genomes rand eggs0Len cap rest acc

/-- `EcosystemManager::process_reproduction` (ecosystem.rs): the entry
capacity guard (fish count only), the courting-pair loop, then the
deferred insertion of the new genomes and eggs. -/
def processReproduction (st : EcoState) (fish : List Fish) (genomes : GenomeTable)
    (cfg : SimulationConfig) (tick : ℕ) (rand : ℕ → PairRand)
    (genomeIdCtr eggIdCtr : ℕ) : EcoState × List Fish × GenomeTable :=
  let cap := effectiveCapacity cfg st.water_quality
  if fish.length ≥ cap then (st, fish, genomes)
  else
    let acc := reproLoop cfg tick st.decorations genomes rand st.eggs.length cap
      (List.range fish.length)
      { fish := fish, reproduced := [], newEggs := []
        nextGenomeId := genomeIdCtr, nextEggId := eggIdCtr }
    let genomes := acc.newEggs.foldl (fun gs eg => insertG gs eg.2.id eg.2) genomes
    let st := { st with eggs := st.eggs ++ acc.newEggs.map Prod.fst }
    (st, acc.fish, genomes)

-- ─────────────────────────── Egg hatching (ecosystem.rs) ────────────────────

/-- `Vec::swap_remove(i)`: remove index `i`, moving the last element
into its place. -/
def swapRemove {α : Type} [Inhabited α] (l : List α) (i : ℕ) : List α :=
  (l.set i (l.getLastD default)).dropLast

/-- RNG outcomes consumed by one `Fish::new` call during hatching
(restricted to the fields kept in the `Fish` model). -/
structure NewFishRand where
  vx : ℚ
  vy : ℚ

/-- The juvenile spawned from a hatched egg (ecosystem.rs,
process_eggs): `Fish::new` followed by the juvenile flags. -/
def hatchChild (ctr gid : ℕ) (x y : ℚ) (r : NewFishRand) : Fish :=
  { fishNew ctr gid x y r.vx r.vy with is_juvenile := true, juvenile_timer := 0 }

/-- The hatch loop of `process_eggs` (ecosystem.rs): state is
(egg list, fish list, event list, fish-id counter, RNG cursor). -/
def hatchLoop (genomes : GenomeTable) (rand : ℕ → NewFishRand) :
    List ℕ → List Egg × List Fish × List SimEvent × ℕ × ℕ →
    List Egg × List Fish × List SimEvent × ℕ × ℕ
  | [], s => s
  | idx :: rest, (eggs, fish, events, ctr, k) =>
    let egg := eggs.getD idx default
    let eggs := swapRemove eggs idx
    if (lookupG genomes egg.genome_id).isSome then
      let child := hatchChild ctr egg.genome_id egg.x egg.y (rand k)
      let events := events ++
        [SimEvent.Birth child.id egg.genome_id egg.parent_a_genome egg.parent_b_genome]
      hatchLoop genomes rand rest (eggs, fish ++ [child], events, ctr + 1, k + 1)
    else
      hatchLoop genomes rand rest (eggs, fish, events, ctr, k)

/-- One tick of egg aging (`egg.age += 1`, ecosystem.rs). -/
def ageEgg (e : Egg) : Egg :=
  { e with age := e.age + 1 }

/-- `EcosystemManager::process_eggs` (ecosystem.rs): age all eggs, then
hatch mature ones in reverse index order via `swap_remove`.  The index
list is collected in ascending order, so the source's `sort_unstable`
is the identity and only the `reverse` remains. -/
def processEggs (st : EcoState) (fish : List Fish) (genomes : GenomeTable)
    (cfg : SimulationConfig) (rand : ℕ → NewFishRand) (fishIdCtr : ℕ) :
    EcoState × List Fish :=
  let aged := st.eggs.map ageEgg
  let hatchedIdx := (List.range aged.length).filter
    (fun i => (aged.getD i default).age ≥ cfg.egg_hatch_time)
  let r := hatchLoop genomes rand hatchedIdx.reverse (aged, fish, st.events, fishIdCtr, 0)
  ({ st with eggs := r.1, events := r.2.2.1 }, r.2.1)

-- ─────────────────────────── Force breeding (ecosystem.rs) ──────────────────

/-- `EcosystemManager::force_breed` (ecosystem.rs): validation chain,
then inheritance and egg creation.  Besides the source's `Result`, the
embedding returns the (possibly unchanged) manager state, fish list and
genome table, so that "performs no mutation" is expressible. -/
def forceBreed (st : EcoState) (fish : List Fish) (genomes : GenomeTable)
    (cfg : SimulationConfig) (tick : ℕ) (rand : InheritRand)
    (aId bId : ℕ) (genomeIdCtr eggIdCtr : ℕ) :
    Except String ℕ × EcoState × List Fish × GenomeTable :=
  match fish.findIdx? (fun f => f.id == aId && f.is_alive) with
  | none => (.error "Fish A not found or dead", st, fish, genomes)
  | some aIdx =>
  match fish.findIdx? (fun f => f.id == bId && f.is_alive) with
  | none => (.error "Fish B not found or dead", st, fish, genomes)
  | some bIdx =>
  if aIdx = bIdx then (.error "Cannot breed a fish with itself", st, fish, genomes)
  else
  match lookupG genomes (fish.getD aIdx default).genome_id with
  | none => (.error "Genome A not found", st, fish, genomes)
  | some ga =>
  match lookupG genomes (fish.getD bIdx default).genome_id with
  | none => (.error "Genome B not found", st, fish, genomes)
  | some gb =>
  if ga.sex = gb.sex then (.error "Must be opposite sex", st, fish, genomes)
  else
    let ageFracA := ageFraction (fish.getD aIdx default) ga BASE_LIFESPAN
    let ageFracB := ageFraction (fish.getD bIdx default) gb BASE_LIFESPAN
    if ageFracA < ga.maturity_age ∨ ageFracB < gb.maturity_age then
      (.error "Both fish must be mature", st, fish, genomes)
    else if (fish.getD aIdx default).is_juvenile ∨ (fish.getD bIdx default).is_juvenile then
      (.error "Juvenile fish cannot breed", st, fish, genomes)
    else
      let crossSpecies := genomeDistance ga gb ≥ cfg.species_threshold
      let largeRate := if crossSpecies then cfg.mutation_rate_large * 2 else cfg.mutation_rate_large
      let smallRate := if crossSpecies then cfg.mutation_rate_small * (15/10) else cfg.mutation_rate_small
      let inbred := inbredCheck ga gb
      let child := inherit ga gb rand inbred largeRate smallRate genomeIdCtr
      let midX := ((fish.getD aIdx default).x + (fish.getD bIdx default).x) / 2
      let eggY := eggPlacementY st.decorations midX (fish.getD aIdx default).y
        (cfg.tank_height - 40)
      let egg : Egg :=
        { id := eggIdCtr, genome_id := child.id, x := midX, y := eggY
          age := 0, parent_a_genome := ga.id, parent_b_genome := gb.id }
      let fish := fish.set aIdx
        { (fish.getD aIdx default) with last_reproduced_tick := some tick }
      let fish := fish.set bIdx
        { (fish.getD bIdx default) with last_reproduced_tick := some tick }
      let genomes := insertG genomes child.id child
      let st := { st with eggs := st.eggs ++ [egg] }
      (.ok egg.id, st, fish, genomes)

-- ───────────────────────── Species detection (ecosystem.rs) ─────────────────

/-- `find_root` (ecosystem.rs): chase parent pointers to the root.  The
source's `while` loop is embedded with explicit fuel; on every state the
union loop can produce, pointer chains are shorter than the vector's
length, so `fuel = cluster.length` computes the same root. -/
def findRoot (cluster : List ℕ) : ℕ → ℕ → ℕ
  | 0, i => i
  | fuel + 1, i =>
    let p := cluster.getD i i
    if p = i then i else findRoot cluster fuel p

/-- The single-linkage union pass of `detect_species` (ecosystem.rs):
`for i in 0..n { for j in (i+1)..n { … } }`, with the `j` range written
as a guard over `0..n` (same iterations in the same order). -/
def unionPass (living : List FishGenome) (threshold : ℚ) : List ℕ :=
  let n := living.length
  (List.range n).foldl (fun cluster i =>
    (List.range n).foldl (fun cluster j =>
      if i < j ∧ genomeDistance (living.getD i default) (living.getD j default) < threshold then
        let ci := findRoot cluster cluster.length i
        let cj := findRoot cluster cluster.length j
        if ci ≠ cj then cluster.set ci cj else cluster
      else cluster) cluster) (List.range n)

/-- The cluster-collection pass of `detect_species` (ecosystem.rs).  The
source groups indices by root in a `HashMap` and iterates
`into_values()` in unspecified order; the embedding realises this as
grouping in first-encounter order of the roots. -/
def collectClusters (cluster : List ℕ) (n : ℕ) : List (List ℕ) :=
  ((List.range n).foldl (fun (acc : List (ℕ × List ℕ)) i =>
    let root := findRoot cluster cluster.length i
    if acc.any (fun p => p.1 == root) then
      acc.map (fun p => if p.1 == root then (p.1, p.2 ++ [i]) else p)
    else acc ++ [(root, [i])]) []).map Prod.snd

/-- The trigonometric primitives used by the circular-mean hue centroid:
`sinD`/`cosD` are sine/cosine of an angle in degrees (the source's
`to_radians().sin()` composition) and `atan2D` is `atan2` returning
degrees (the source's `atan2(..).to_degrees()`).  They are irrational in
general, so they enter the embedding as an oracle. -/
structure TrigOracle where
  sinD : ℚ → ℚ
  cosD : ℚ → ℚ
  atan2D : ℚ → ℚ → ℚ

/-- The centroid of a cluster (ecosystem.rs, detect_species): circular
mean for hue, arithmetic means for speed and size. -/
def clusterCentroid (trig : TrigOracle) (living : List FishGenome)
    (members : List ℕ) : ℚ × ℚ × ℚ :=
  let sums := members.foldl (fun (sc : ℚ × ℚ) i =>
    (sc.1 + trig.sinD (living.getD i default).base_hue,
     sc.2 + trig.cosD (living.getD i default).base_hue)) (0, 0)
  let avgHue := ratRemEuclid (trig.atan2D sums.1 sums.2) 360
  let avgSpeed := (members.foldl (fun s i => s + (living.getD i default).speed) 0)
    / (members.length : ℚ)
  let avgSize := (members.foldl (fun s i => s + (living.getD i default).body_length) 0)
    / (members.length : ℚ)
  (avgHue, avgSpeed, avgSize)

/-- The `{:?}` Debug rendering stored in `centroid_pattern`, abstracted
to the variant name (the string is never consulted by any logic). -/
def patternDebugName : PatternGene → String
  | .Solid => "Solid"
  | .Striped _ => "Striped"
  | .Spotted _ => "Spotted"
  | .Gradient _ => "Gradient"
  | .Bicolor _ => "Bicolor"

/-- The match-existing-species scan of `detect_species` (ecosystem.rs):
first non-extinct species whose centroid is within the hue/speed/size
thresholds is updated in place; returns the updated list and the
matched id, if any. -/
def matchCluster (avgHue avgSpeed avgSize : ℚ) (memberIds : List ℕ) (count : ℕ) :
    List Species → List Species × Option ℕ
  | [] => ([], none)
  | sp :: rest =>
    if sp.extinct_at_tick.isSome then
      let r := matchCluster avgHue avgSpeed avgSize memberIds count rest
      (sp :: r.1, r.2)
    else
      let hueDiff := min |avgHue - sp.centroid_hue| (360 - |avgHue - sp.centroid_hue|)
      if hueDiff < 30 ∧ |avgSpeed - sp.centroid_speed| < 1/2
          ∧ |avgSize - sp.centroid_size| < 1/2 then
        ({ sp with member_count := count, member_genome_ids := memberIds
                   centroid_hue := avgHue, centroid_speed := avgSpeed
                   centroid_size := avgSize } :: rest, some sp.id)
      else
        let r := matchCluster avgHue avgSpeed avgSize memberIds count rest
        (sp :: r.1, r.2)

/-- `EcosystemManager::detect_species` (ecosystem.rs): single-linkage
clustering of living genomes, centroid matching against existing
species, new-species creation, extinction marking, and pruning. -/
def detectSpecies (trig : TrigOracle) (st : EcoState) (fish : List Fish)
    (genomes : GenomeTable) (cfg : SimulationConfig) (tick : ℕ) : EcoState :=
  if fish.length < 3 then st
  else
    let living := fish.filterMap (fun f => lookupG genomes f.genome_id)
    let n := living.length
    if n < 3 then st
    else
      let cluster := unionPass living cfg.species_threshold
      let validClusters := (collectClusters cluster n).filter
        (fun c => c.length ≥ cfg.species_min_members)
      -- process each valid cluster: match or create
      let r := validClusters.foldl
        (fun (acc : List Species × List SimEvent × List ℕ × ℕ) members =>
          let (species, events, matched, nextId) := acc
          let c := clusterCentroid trig living members
          let memberIds := members.map (fun i => (living.getD i default).id)
          let m := matchCluster c.1 c.2.1 c.2.2 memberIds members.length species
          match m.2 with
          | some sid => (m.1, events, matched ++ [sid], nextId)
          | none =>
            let sp : Species :=
              { id := nextId, name := none, description := none
                discovered_at_tick := tick, extinct_at_tick := none
                centroid_hue := c.1, centroid_speed := c.2.1, centroid_size := c.2.2
                centroid_pattern :=
                  (members.head?.map (fun i => patternDebugName (living.getD i default).pattern)).getD ""
                member_count := members.length, member_genome_ids := memberIds }
            (m.1 ++ [sp], events ++ [SimEvent.NewSpecies nextId],
             matched ++ [nextId], nextId + 1))
        (st.species, st.events, [], st.next_species_id)
      let (species, events, matched, nextId) := r
      -- mark extinctions
      let me := species.foldl (fun (acc : List Species × List SimEvent) sp =>
        if sp.extinct_at_tick = none ∧ ¬ matched.contains sp.id then
          (acc.1 ++ [{ sp with extinct_at_tick := some tick }],
           acc.2 ++ [SimEvent.Extinction sp.id])
        else (acc.1 ++ [sp], acc.2)) ([], events)
      -- prune long-extinct species
      let pruned := me.1.filter (fun sp =>
        match sp.extinct_at_tick with
        | some extinctTick => tick - extinctTick < 10000
        | none => true)
      { st with species := pruned, events := me.2, next_species_id := nextId }

-- ─────────────── Default configuration values (config.rs) ───────────────────

/-- `SimulationConfig::default()` (config.rs), restricted to the
modelled fields. -/
def defaultConfig : SimulationConfig :=
  { base_carrying_capacity := 100
    hunger_rate := 5/10000
    fertility_scale := 5/100
    reproduction_cooldown := 300
    mutation_rate_small := 1/10
    mutation_rate_large := 2/100
    species_threshold := 5/2
    species_min_members := 3
    day_night_cycle := true
    tank_width := 1200
    tank_height := 800
    egg_hatch_time := 180
    juvenile_duration := 300 }

/-- Iterated `update_behavior` with a fixed environment (no predator, no
mate) and a per-tick oracle for the speed value. -/
def updateIter (g : FishGenome) (cfg : SimulationConfig) (baseLifespan : ℕ)
    (waterQuality timeOfDay : ℚ) (speeds : ℕ → ℚ) (f : Fish) : ℕ → Fish
  | 0 => f
  | n + 1 =>
    updateBehavior (updateIter g cfg baseLifespan waterQuality timeOfDay speeds f n)
      g cfg n false none baseLifespan waterQuality timeOfDay (speeds n)

-- ──────────────────────── Auxiliary arithmetic lemmas ───────────────────────

theorem ratRemEuclid_eq_self (x m : ℚ) (h0 : 0 ≤ x) (h1 : x < m) :
    ratRemEuclid x m = x := by
  have hm : 0 < m := lt_of_le_of_lt h0 h1
  unfold ratRemEuclid
  have : ⌊x / m⌋ = 0 := by
    rw [Int.floor_eq_zero_iff]
    constructor
    · exact div_nonneg h0 (le_of_lt hm)
    · rw [div_lt_one hm]; exact h1
  rw [this]
  push_cast
  ring

theorem hueDistance_self (a : ℚ) : hueDistance a a = 0 := by
  unfold hueDistance
  simp

theorem hueDistance_comm (a b : ℚ) : hueDistance a b = hueDistance b a := by
  unfold hueDistance
  rw [abs_sub_comm]

theorem patternDistance_self (p : PatternGene) : patternDistance p p = 0 := by
  cases p <;> simp [patternDistance, hueDistance_self]

theorem patternDistance_comm (p q : PatternGene) :
    patternDistance p q = patternDistance q p := by
  cases p <;> cases q <;>
    simp [patternDistance, PatternGene.typeIndex, abs_sub_comm, hueDistance_comm]

-- ───────────────────────────── Claim C8 ─────────────────────────────────────

/-- C8: `genome_distance(a, a) = 0` for every genome `a`, and
`genome_distance` is symmetric in its two arguments. -/
theorem genomeDistance_zero_and_symm (a b : FishGenome) :
    genomeDistance a a = 0 ∧ genomeDistance a b = genomeDistance b a := by
  constructor
  · unfold genomeDistance
    simp [hueDistance_self, patternDistance_self]
  · unfold genomeDistance
    rw [hueDistance_comm, patternDistance_comm,
      abs_sub_comm a.saturation, abs_sub_comm a.body_length,
      abs_sub_comm a.body_width, abs_sub_comm a.pattern_intensity,
      abs_sub_comm a.speed, abs_sub_comm a.aggression,
      abs_sub_comm a.school_affinity, abs_sub_comm a.disease_resistance]

-- ───────────────────────────── Claim C4 ─────────────────────────────────────

/-- C4: `eat()` strictly decreases hunger unless it floors at 0 (in
particular hunger strictly decreases whenever it was positive), sets
the behaviour state to Satiated, and increments `meals_eaten` by
exactly 1. -/
theorem eat_spec (f : Fish) (h0 : 0 ≤ f.hunger) :
    ((eat f).hunger < f.hunger ∨ (eat f).hunger = 0)
    ∧ (0 < f.hunger → (eat f).hunger < f.hunger)
    ∧ (eat f).behavior = .Satiated
    ∧ (eat f).meals_eaten = f.meals_eaten + 1 := by
  refine ⟨?_, ?_, rfl, rfl⟩
  · rcases max_choice (f.hunger - 3/10) 0 with h | h
    · left
      show max (f.hunger - 3/10) 0 < f.hunger
      rw [h]; linarith
    · right
      show max (f.hunger - 3/10) 0 = 0
      exact h
  · intro hpos
    show max (f.hunger - 3/10) 0 < f.hunger
    rcases max_choice (f.hunger - 3/10) 0 with h | h <;> rw [h] <;> linarith

/-- Witness for C4 at a concrete fish (the `Fish::new` initial state,
hunger 0.3). -/
theorem eat_spec_witness :
    0 ≤ (fishNew 1 2 0 0 0 0).hunger
    ∧ (((eat (fishNew 1 2 0 0 0 0)).hunger < (fishNew 1 2 0 0 0 0).hunger
        ∨ (eat (fishNew 1 2 0 0 0 0)).hunger = 0)
      ∧ (0 < (fishNew 1 2 0 0 0 0).hunger →
          (eat (fishNew 1 2 0 0 0 0)).hunger < (fishNew 1 2 0 0 0 0).hunger)
      ∧ (eat (fishNew 1 2 0 0 0 0)).behavior = .Satiated
      ∧ (eat (fishNew 1 2 0 0 0 0)).meals_eaten = (fishNew 1 2 0 0 0 0).meals_eaten + 1) :=
  ⟨by norm_num [fishNew], eat_spec (fishNew 1 2 0 0 0 0) (by norm_num [fishNew])⟩

-- ───────────────────────────── Claim C5 ─────────────────────────────────────

/-- The fish used to refute the closed-interval reading of C5: age
fraction exactly equal to `maturity_age`. -/
def fishC5 : Fish :=
  { fishNew 1 10 0 0 0 0 with age := 10000, hunger := 1/5 }

/-- The genome used to refute the closed-interval reading of C5. -/
def genomeC5 : FishGenome :=
  { (default : FishGenome) with id := 10, maturity_age := 1/2, lifespan_factor := 1 }

/-- C5 counterexample: a fish whose age fraction equals `maturity_age`
exactly satisfies every condition of the claim's closed interval
`[maturity_age, 0.85]` (alive, adult, fed, good water, never
reproduced), yet `can_reproduce` returns `false` — the source uses the
strict comparison `age_frac > maturity_age`. -/
theorem canReproduce_boundary_counterexample :
    canReproduce fishC5 genomeC5 1000 defaultConfig 20000 (4/5) = false
    ∧ fishC5.is_alive = true
    ∧ fishC5.is_juvenile = false
    ∧ fishC5.hunger < 2/5
    ∧ genomeC5.maturity_age ≤ ageFraction fishC5 genomeC5 20000
    ∧ ageFraction fishC5 genomeC5 20000 ≤ 17/20
    ∧ (2/5 : ℚ) < 4/5
    ∧ fishC5.last_reproduced_tick = none := by
  have h20 : ((20000 : ℤ).toNat : ℚ) = 20000 := by simp
  have hfrac : ageFraction fishC5 genomeC5 20000 = 1/2 := by
    norm_num [ageFraction, fishC5, genomeC5, fishNew, h20]
  have hmat : genomeC5.maturity_age = 1/2 := rfl
  refine ⟨?_, rfl, rfl, by norm_num [fishC5, fishNew], ?_, ?_, by norm_num, rfl⟩
  · simp [canReproduce, hfrac, hmat]
  · rw [hfrac, hmat]
  · rw [hfrac]; norm_num

/-- C5 amended: `can_reproduce` returns true iff the fish is alive, not
juvenile, hunger below 0.4, age fraction strictly inside the OPEN
interval `(maturity_age, 0.85)`, water quality strictly above 0.4, and
the cooldown elapsed since the last reproduction (or none recorded). -/
theorem canReproduce_iff (f : Fish) (g : FishGenome) (tick : ℕ)
    (cfg : SimulationConfig) (baseLifespan : ℕ) (waterQuality : ℚ) :
    canReproduce f g tick cfg baseLifespan waterQuality = true ↔
      (f.is_alive = true ∧ f.is_juvenile = false
        ∧ f.hunger < 2/5
        ∧ g.maturity_age < ageFraction f g baseLifespan
        ∧ ageFraction f g baseLifespan < 17/20
        ∧ 2/5 < waterQuality
        ∧ (∀ t, f.last_reproduced_tick = some t →
            tick - t > cfg.reproduction_cooldown)) := by
  cases h : f.last_reproduced_tick <;>
    simp [canReproduce, h, Bool.and_eq_true, decide_eq_true_eq, and_assoc,
      gt_iff_lt, Bool.not_eq_true']

-- ───────────────────────────── Claim C2 ─────────────────────────────────────

/-- The declared `[min, max]` range of every scalar trait (the bounds
`FishGenome::random` draws from and `inherit` passes to
`inherit_trait`; hue is the half-open wheel `[0, 360)`), rendered as a
predicate for stating the range invariant of the spec. -/
def traitsInDeclaredRanges (g : FishGenome) : Prop :=
  (0 ≤ g.base_hue ∧ g.base_hue < 360)
  ∧ (3/10 ≤ g.saturation ∧ g.saturation ≤ 1)
  ∧ (3/10 ≤ g.lightness ∧ g.lightness ≤ 7/10)
  ∧ (6/10 ≤ g.body_length ∧ g.body_length ≤ 2)
  ∧ (5/10 ≤ g.body_width ∧ g.body_width ≤ 15/10)
  ∧ (5/10 ≤ g.tail_size ∧ g.tail_size ≤ 2)
  ∧ (3/10 ≤ g.dorsal_fin_size ∧ g.dorsal_fin_size ≤ 15/10)
  ∧ (3/10 ≤ g.pectoral_fin_size ∧ g.pectoral_fin_size ≤ 15/10)
  ∧ (0 ≤ g.pattern_intensity ∧ g.pattern_intensity ≤ 1)
  ∧ (0 ≤ g.pattern_color_offset ∧ g.pattern_color_offset ≤ 180)
  ∧ (5/10 ≤ g.eye_size ∧ g.eye_size ≤ 15/10)
  ∧ (5/10 ≤ g.speed ∧ g.speed ≤ 2)
  ∧ (0 ≤ g.aggression ∧ g.aggression ≤ 1)
  ∧ (0 ≤ g.school_affinity ∧ g.school_affinity ≤ 1)
  ∧ (0 ≤ g.curiosity ∧ g.curiosity ≤ 1)
  ∧ (0 ≤ g.boldness ∧ g.boldness ≤ 1)
  ∧ (5/10 ≤ g.metabolism ∧ g.metabolism ≤ 2)
  ∧ (3/10 ≤ g.fertility ∧ g.fertility ≤ 1)
  ∧ (5/10 ≤ g.lifespan_factor ∧ g.lifespan_factor ≤ 2)
  ∧ (3/10 ≤ g.maturity_age ∧ g.maturity_age ≤ 7/10)
  ∧ (0 ≤ g.disease_resistance ∧ g.disease_resistance ≤ 1)

/-- `traitsInDeclaredRanges` without the two traits the inbreeding
penalty rescales (`lifespan_factor`, `fertility`). -/
def traitsInRangesExceptPenalized (g : FishGenome) : Prop :=
  (0 ≤ g.base_hue ∧ g.base_hue < 360)
  ∧ (3/10 ≤ g.saturation ∧ g.saturation ≤ 1)
  ∧ (3/10 ≤ g.lightness ∧ g.lightness ≤ 7/10)
  ∧ (6/10 ≤ g.body_length ∧ g.body_length ≤ 2)
  ∧ (5/10 ≤ g.body_width ∧ g.body_width ≤ 15/10)
  ∧ (5/10 ≤ g.tail_size ∧ g.tail_size ≤ 2)
  ∧ (3/10 ≤ g.dorsal_fin_size ∧ g.dorsal_fin_size ≤ 15/10)
  ∧ (3/10 ≤ g.pectoral_fin_size ∧ g.pectoral_fin_size ≤ 15/10)
  ∧ (0 ≤ g.pattern_intensity ∧ g.pattern_intensity ≤ 1)
  ∧ (0 ≤ g.pattern_color_offset ∧ g.pattern_color_offset ≤ 180)
  ∧ (5/10 ≤ g.eye_size ∧ g.eye_size ≤ 15/10)
  ∧ (5/10 ≤ g.speed ∧ g.speed ≤ 2)
  ∧ (0 ≤ g.aggression ∧ g.aggression ≤ 1)
  ∧ (0 ≤ g.school_affinity ∧ g.school_affinity ≤ 1)
  ∧ (0 ≤ g.curiosity ∧ g.curiosity ≤ 1)
  ∧ (0 ≤ g.boldness ∧ g.boldness ≤ 1)
  ∧ (5/10 ≤ g.metabolism ∧ g.metabolism ≤ 2)
  ∧ (3/10 ≤ g.maturity_age ∧ g.maturity_age ≤ 7/10)
  ∧ (0 ≤ g.disease_resistance ∧ g.disease_resistance ≤ 1)

instance (g : FishGenome) : Decidable (traitsInDeclaredRanges g) := by
  unfold traitsInDeclaredRanges; infer_instance

instance (g : FishGenome) : Decidable (traitsInRangesExceptPenalized g) := by
  unfold traitsInRangesExceptPenalized; infer_instance

theorem inheritTrait_mem (a b lo hi : ℚ) (r : TraitRand) (ms rl rs : ℚ)
    (h : lo ≤ hi) :
    lo ≤ inheritTrait a b lo hi r ms rl rs ∧ inheritTrait a b lo hi r ms rl rs ≤ hi := by
  simp only [inheritTrait]
  split_ifs <;> exact ratClamp_mem _ _ _ h

theorem inheritHue_mem (a b : ℚ) (r : HueRand) (ms rl rs : ℚ) :
    0 ≤ inheritHue a b r ms rl rs ∧ inheritHue a b r ms rl rs < 360 := by
  simp only [inheritHue]
  exact ratRemEuclid_mem _ 360 (by norm_num)

/-- C2 amended: every scalar trait of a child produced by `inherit`
lies in its declared range, except that for an inbred child the two
post-clamp penalties push `lifespan_factor` into `[0.85·0.5, 0.85·2] =
[0.425, 1.7]` and `fertility` into `[0.9·0.3, 0.9·1] = [0.27, 0.9]`,
whose lower ends undershoot the declared minima.  This holds for every
pair of parents (in range or not), every RNG outcome, and every
mutation-rate pair. -/
theorem inherit_ranges (pa pb : FishGenome) (r : InheritRand) (inbred : Bool)
    (rl rs : ℚ) (cid : ℕ) :
    traitsInRangesExceptPenalized (inherit pa pb r inbred rl rs cid)
    ∧ (inbred = false → traitsInDeclaredRanges (inherit pa pb r inbred rl rs cid))
    ∧ (inbred = true →
        17/40 ≤ (inherit pa pb r inbred rl rs cid).lifespan_factor
        ∧ (inherit pa pb r inbred rl rs cid).lifespan_factor ≤ 17/10
        ∧ 27/100 ≤ (inherit pa pb r inbred rl rs cid).fertility
        ∧ (inherit pa pb r inbred rl rs cid).fertility ≤ 9/10) := by
  cases inbred with
  | false =>
    refine ⟨?_, fun _ => ?_, fun h => Bool.noConfusion h⟩
    · exact ⟨inheritHue_mem _ _ _ _ _ _,
        inheritTrait_mem _ _ _ _ _ _ _ _ (by norm_num),
        inheritTrait_mem _ _ _ _ _ _ _ _ (by norm_num),
        inheritTrait_mem _ _ _ _ _ _ _ _ (by norm_num),
        inheritTrait_mem _ _ _ _ _ _ _ _ (by norm_num),
        inheritTrait_mem _ _ _ _ _ _ _ _ (by norm_num),
        inheritTrait_mem _ _ _ _ _ _ _ _ (by norm_num),
        inheritTrait_mem _ _ _ _ _ _ _ _ (by norm_num),
        inheritTrait_mem _ _ _ _ _ _ _ _ (by norm_num),
        inheritTrait_mem _ _ _ _ _ _ _ _ (by norm_num),
        inheritTrait_mem _ _ _ _ _ _ _ _ (by norm_num),
        inheritTrait_mem _ _ _ _ _ _ _ _ (by norm_num),
        inheritTrait_mem _ _ _ _ _ _ _ _ (by norm_num),
        inheritTrait_mem _ _ _ _ _ _ _ _ (by norm_num),
        inheritTrait_mem _ _ _ _ _ _ _ _ (by norm_num),
        inheritTrait_mem _ _ _ _ _ _ _ _ (by norm_num),
        inheritTrait_mem _ _ _ _ _ _ _ _ (by norm_num),
        inheritTrait_mem _ _ _ _ _ _ _ _ (by norm_num),
        inheritTrait_mem _ _ _ _ _ _ _ _ (by norm_num)⟩
    · exact ⟨inheritHue_mem _ _ _ _ _ _,
        inheritTrait_mem _ _ _ _ _ _ _ _ (by norm_num),
        inheritTrait_mem _ _ _ _ _ _ _ _ (by norm_num),
        inheritTrait_mem _ _ _ _ _ _ _ _ (by norm_num),
        inheritTrait_mem _ _ _ _ _ _ _ _ (by norm_num),
        inheritTrait_mem _ _ _ _ _ _ _ _ (by norm_num),
        inheritTrait_mem _ _ _ _ _ _ _ _ (by norm_num),
        inheritTrait_mem _ _ _ _ _ _ _ _ (by norm_num),
        inheritTrait_mem _ _ _ _ _ _ _ _ (by norm_num),
        inheritTrait_mem _ _ _ _ _ _ _ _ (by norm_num),
        inheritTrait_mem _ _ _ _ _ _ _ _ (by norm_num),
        inheritTrait_mem _ _ _ _ _ _ _ _ (by norm_num),
        inheritTrait_mem _ _ _ _ _ _ _ _ (by norm_num),
        inheritTrait_mem _ _ _ _ _ _ _ _ (by norm_num),
        inheritTrait_mem _ _ _ _ _ _ _ _ (by norm_num),
        inheritTrait_mem _ _ _ _ _ _ _ _ (by norm_num),
        inheritTrait_mem _ _ _ _ _ _ _ _ (by norm_num),
        inheritTrait_mem _ _ _ _ _ _ _ _ (by norm_num),
        inheritTrait_mem _ _ _ _ _ _ _ _ (by norm_num),
        inheritTrait_mem _ _ _ _ _ _ _ _ (by norm_num),
        inheritTrait_mem _ _ _ _ _ _ _ _ (by norm_num)⟩
  | true =>
    have hl := inheritTrait_mem pa.lifespan_factor pb.lifespan_factor (5/10) 2
      r.lifespan_factor (15/10) rl rs (by norm_num)
    have hf := inheritTrait_mem pa.fertility pb.fertility (3/10) 1
      r.fertility (15/10) rl rs (by norm_num)
    refine ⟨?_, fun h => Bool.noConfusion h, fun _ => ?_⟩
    · exact ⟨inheritHue_mem _ _ _ _ _ _,
        inheritTrait_mem _ _ _ _ _ _ _ _ (by norm_num),
        inheritTrait_mem _ _ _ _ _ _ _ _ (by norm_num),
        inheritTrait_mem _ _ _ _ _ _ _ _ (by norm_num),
        inheritTrait_mem _ _ _ _ _ _ _ _ (by norm_num),
        inheritTrait_mem _ _ _ _ _ _ _ _ (by norm_num),
        inheritTrait_mem _ _ _ _ _ _ _ _ (by norm_num),
        inheritTrait_mem _ _ _ _ _ _ _ _ (by norm_num),
        inheritTrait_mem _ _ _ _ _ _ _ _ (by norm_num),
        inheritTrait_mem _ _ _ _ _ _ _ _ (by norm_num),
        inheritTrait_mem _ _ _ _ _ _ _ _ (by norm_num),
        inheritTrait_mem _ _ _ _ _ _ _ _ (by norm_num),
        inheritTrait_mem _ _ _ _ _ _ _ _ (by norm_num),
        inheritTrait_mem _ _ _ _ _ _ _ _ (by norm_num),
        inheritTrait_mem _ _ _ _ _ _ _ _ (by norm_num),
        inheritTrait_mem _ _ _ _ _ _ _ _ (by norm_num),
        inheritTrait_mem _ _ _ _ _ _ _ _ (by norm_num),
        inheritTrait_mem _ _ _ _ _ _ _ _ (by norm_num),
        inheritTrait_mem _ _ _ _ _ _ _ _ (by norm_num)⟩
    · refine ⟨?_, ?_, ?_, ?_⟩
      · show 17/40 ≤ inheritTrait pa.lifespan_factor pb.lifespan_factor (5/10) 2
          r.lifespan_factor (15/10) rl rs * (85/100)
        linarith [hl.1]
      · show inheritTrait pa.lifespan_factor pb.lifespan_factor (5/10) 2
          r.lifespan_factor (15/10) rl rs * (85/100) ≤ 17/10
        linarith [hl.2]
      · show 27/100 ≤ inheritTrait pa.fertility pb.fertility (3/10) 1
          r.fertility (15/10) rl rs * (90/100)
        linarith [hf.1]
      · show inheritTrait pa.fertility pb.fertility (3/10) 1
          r.fertility (15/10) rl rs * (90/100) ≤ 9/10
        linarith [hf.2]

/-- A fully in-range parent genome used in concrete instances. -/
def genomeParentA : FishGenome :=
  { id := 1, generation := 0, parent_a := none, parent_b := none, sex := .Male
    base_hue := 100, saturation := 1/2, lightness := 1/2, body_length := 1
    body_width := 1, tail_size := 1, dorsal_fin_size := 1, pectoral_fin_size := 1
    pattern := .Solid, pattern_intensity := 1/2, pattern_color_offset := 90
    eye_size := 1, speed := 1, aggression := 1/2, school_affinity := 1/2
    curiosity := 1/2, boldness := 1/2, metabolism := 1, fertility := 1/2
    lifespan_factor := 1/2, maturity_age := 1/2, disease_resistance := 1/2 }

/-- The opposite-sex in-range partner. -/
def genomeParentB : FishGenome :=
  { genomeParentA with id := 2, sex := .Female }

/-- A concrete RNG outcome for one trait: dominant pick of parent A, no
mutation (roll 0.99 above every rate threshold used here). -/
def traitRandEx : TraitRand :=
  { dominant := true, pickA := true, w := 1/2, mutRoll := 99/100, gauss := 0 }

/-- A concrete RNG outcome for a whole `inherit` call: dominant picks of
parent A everywhere, no mutations. -/
def inheritRandEx : InheritRand :=
  { sexMale := true
    hue := { dominant := true, pickA := true, w := 1/2, mutRoll := 99/100
             largeDelta := 0, smallDelta := 0 }
    pat := { roll := 1/2, newPat := .Solid, pickA := true, perturb := 0 }
    saturation := traitRandEx, lightness := traitRandEx
    body_length := traitRandEx, body_width := traitRandEx
    tail_size := traitRandEx, dorsal_fin_size := traitRandEx
    pectoral_fin_size := traitRandEx, pattern_intensity := traitRandEx
    pattern_color_offset := traitRandEx, eye_size := traitRandEx
    speed := traitRandEx, aggression := traitRandEx
    school_affinity := traitRandEx, curiosity := traitRandEx
    boldness := traitRandEx, metabolism := traitRandEx
    fertility := traitRandEx, lifespan_factor := traitRandEx
    maturity_age := traitRandEx, disease_resistance := traitRandEx }

/-- C2 counterexample: two fully in-range parents with
`lifespan_factor = 0.5`, bred with `inbred = true` and the default
mutation rates, and an RNG outcome with no mutation, produce a child
with `lifespan_factor = 0.5 · 0.85 = 0.425`, outside the declared
`[0.5, 2.0]` — the inbreeding penalty is applied after clamping. -/
theorem inherit_inbred_range_counterexample :
    traitsInDeclaredRanges genomeParentA
    ∧ traitsInDeclaredRanges genomeParentB
    ∧ (inherit genomeParentA genomeParentB inheritRandEx true (2/100) (1/10) 99).lifespan_factor
        = 17/40
    ∧ ¬ traitsInDeclaredRanges
        (inherit genomeParentA genomeParentB inheritRandEx true (2/100) (1/10) 99) := by
  have hval : (inherit genomeParentA genomeParentB inheritRandEx true
      (2/100) (1/10) 99).lifespan_factor = 17/40 := by
    norm_num [inherit, inheritTrait, ratClamp, traitRandEx, inheritRandEx,
      genomeParentA, genomeParentB]
  refine ⟨?_, ?_, hval, ?_⟩
  · norm_num [traitsInDeclaredRanges, genomeParentA]
  · norm_num [traitsInDeclaredRanges, genomeParentB, genomeParentA]
  · intro hcontra
    obtain ⟨-, -, -, -, -, -, -, -, -, -, -, -, -, -, -, -, -, -, hlife, -⟩ := hcontra
    rw [hval] at hlife
    have := hlife.1
    norm_num at this

/-- Witness for C2's amended theorem at a concrete inbred instance. -/
theorem inherit_ranges_witness :
    traitsInRangesExceptPenalized
      (inherit genomeParentA genomeParentB inheritRandEx true (2/100) (1/10) 99)
    ∧ (17/40 ≤ (inherit genomeParentA genomeParentB inheritRandEx true (2/100) (1/10) 99).lifespan_factor
      ∧ (inherit genomeParentA genomeParentB inheritRandEx true (2/100) (1/10) 99).lifespan_factor ≤ 17/10
      ∧ 27/100 ≤ (inherit genomeParentA genomeParentB inheritRandEx true (2/100) (1/10) 99).fertility
      ∧ (inherit genomeParentA genomeParentB inheritRandEx true (2/100) (1/10) 99).fertility ≤ 9/10) :=
  ⟨(inherit_ranges genomeParentA genomeParentB inheritRandEx true (2/100) (1/10) 99).1,
   (inherit_ranges genomeParentA genomeParentB inheritRandEx true (2/100) (1/10) 99).2.2 rfl⟩

-- ───────────────────────────── Claim C3 ─────────────────────────────────────

theorem hueSignedDiff_cases (a b : ℚ) :
    hueSignedDiff a b = b - a ∨ hueSignedDiff a b = b - a - 360
      ∨ hueSignedDiff a b = b - a + 360 := by
  simp only [hueSignedDiff]
  split_ifs <;> simp

/-- The signed shortest arc has magnitude `hue_distance` and never
exceeds a half turn, for wheel-normalised inputs. -/
theorem hueSignedDiff_spec (a b : ℚ) (ha0 : 0 ≤ a) (ha1 : a < 360)
    (hb0 : 0 ≤ b) (hb1 : b < 360) :
    |hueSignedDiff a b| = hueDistance a b ∧ |hueSignedDiff a b| ≤ 180 := by
  simp only [hueSignedDiff, hueDistance]
  split_ifs with h1 h2 h3
  · exfalso; linarith
  · rw [abs_of_neg (by linarith), abs_of_neg (show a - b < 0 by linarith),
      min_eq_right (by linarith)]
    constructor <;> linarith
  · rw [abs_of_pos (by linarith), abs_of_pos (show 0 < a - b by linarith),
      min_eq_right (by linarith)]
    constructor <;> linarith
  · rw [abs_sub_comm a b, min_eq_left]
    · constructor
      · rfl
      · rcases abs_cases (b - a) with ⟨h, _⟩ | ⟨h, _⟩ <;> rw [h] <;> linarith
    · rcases abs_cases (b - a) with ⟨h, _⟩ | ⟨h, _⟩ <;> rw [h] <;> linarith

/-- Wrapping `y + d` back to the wheel lands at circular distance `|d|`
from `y`, for `|d| ≤ 180`. -/
theorem ratRemEuclid_shift_dist (y d : ℚ) (hy0 : 0 ≤ y) (hy1 : y < 360)
    (hd : |d| ≤ 180) :
    hueDistance (ratRemEuclid (y + d) 360) y = |d| := by
  have hd1 : -180 ≤ d := by rcases abs_cases d with ⟨h, _⟩ | ⟨h, _⟩ <;> linarith
  have hd2 : d ≤ 180 := by rcases abs_cases d with ⟨h, _⟩ | ⟨h, _⟩ <;> linarith
  rcases lt_or_le (y + d) 0 with hc | hc
  · -- wraps below: representative is y + d + 360
    have hdneg : d < 0 := by linarith
    have heq : y + d = (y + d + 360) + 360 * ((-1 : ℤ) : ℚ) := by push_cast; ring
    rw [heq, ratRemEuclid_add_int_mul _ _ _ (by norm_num),
      ratRemEuclid_eq_self _ _ (by linarith) (by linarith)]
    simp only [hueDistance]
    rw [show y + d + 360 - y = d + 360 by ring, abs_of_nonneg (by linarith),
      min_eq_right (by linarith), abs_of_neg hdneg]
    ring
  · rcases lt_or_le (y + d) 360 with hc2 | hc2
    · -- no wrap
      rw [ratRemEuclid_eq_self _ _ hc hc2]
      simp only [hueDistance]
      rw [show y + d - y = d by ring, min_eq_left (by linarith)]
    · -- wraps above: representative is y + d - 360
      have hdpos : 0 < d := by linarith
      have heq : y + d = (y + d - 360) + 360 * ((1 : ℤ) : ℚ) := by push_cast; ring
      rw [heq, ratRemEuclid_add_int_mul _ _ _ (by norm_num),
        ratRemEuclid_eq_self _ _ (by linarith) (by linarith)]
      simp only [hueDistance]
      rw [show y + d - 360 - y = d - 360 by ring, abs_of_neg (by linarith),
        min_eq_right (by linarith), abs_of_pos hdpos]
      ring

/-- The blend lands on the shorter arc: its circular distances to the
two parents are `w` and `1 - w` times the parents' circular distance. -/
theorem hueBlend_arc (a b w : ℚ) (ha0 : 0 ≤ a) (ha1 : a < 360)
    (hb0 : 0 ≤ b) (hb1 : b < 360) (hw0 : 0 ≤ w) (hw1 : w ≤ 1) :
    hueDistance (ratRemEuclid (hueBlend a b w) 360) a = w * hueDistance a b
    ∧ hueDistance (ratRemEuclid (hueBlend a b w) 360) b = (1 - w) * hueDistance a b := by
  obtain ⟨habs, hle⟩ := hueSignedDiff_spec a b ha0 ha1 hb0 hb1
  have habs' : |hueSignedDiff a b| = hueDistance a b := habs
  constructor
  · have hbound : |hueSignedDiff a b * w| ≤ 180 := by
      rw [abs_mul, abs_of_nonneg hw0]
      nlinarith [abs_nonneg (hueSignedDiff a b)]
    have := ratRemEuclid_shift_dist a (hueSignedDiff a b * w) ha0 ha1 hbound
    rw [show hueBlend a b w = a + hueSignedDiff a b * w from rfl, this,
      abs_mul, abs_of_nonneg hw0, habs']
    ring
  · have hbound : |hueSignedDiff a b * (w - 1)| ≤ 180 := by
      rw [abs_mul, abs_of_nonpos (show w - 1 ≤ 0 by linarith)]
      nlinarith [abs_nonneg (hueSignedDiff a b)]
    have hshift := ratRemEuclid_shift_dist b (hueSignedDiff a b * (w - 1)) hb0 hb1 hbound
    have habsw : |hueSignedDiff a b * (w - 1)| = (1 - w) * hueDistance a b := by
      rw [abs_mul, abs_of_nonpos (show w - 1 ≤ 0 by linarith), habs']
      ring
    rcases hueSignedDiff_cases a b with hc | hc | hc
    · have heq : hueBlend a b w = b + hueSignedDiff a b * (w - 1) := by
        simp only [hueBlend]
        rw [hc]; ring
      rw [heq, hshift, habsw]
    · have heq : hueBlend a b w
          = (b + hueSignedDiff a b * (w - 1)) + 360 * ((-1 : ℤ) : ℚ) := by
        simp only [hueBlend]
        rw [hc]; push_cast; ring
      rw [heq, ratRemEuclid_add_int_mul _ _ _ (by norm_num), hshift, habsw]
    · have heq : hueBlend a b w
          = (b + hueSignedDiff a b * (w - 1)) + 360 * ((1 : ℤ) : ℚ) := by
        simp only [hueBlend]
        rw [hc]; push_cast; ring
      rw [heq, ratRemEuclid_add_int_mul _ _ _ (by norm_num), hshift, habsw]

/-- C3: (1) `inherit_hue` always lands in `[0, 360)`; (2) with no
mutation the blend branch is exactly the wrapped shortest-arc blend;
(3) that blend interpolates along the shorter circular arc (distances
to the parents split as `w` and `1 - w` of their circular distance);
(4) concretely, parents at 350° and 10° blend to within 4° of the 0/360
boundary and at least 176° away from 180°, for every blend weight in
`[0.3, 0.7)`. -/
theorem inheritHue_spec :
    (∀ (a b : ℚ) (r : HueRand) (ms rl rs : ℚ),
      0 ≤ inheritHue a b r ms rl rs ∧ inheritHue a b r ms rl rs < 360)
    ∧ (∀ (a b : ℚ) (r : HueRand) (ms rl rs : ℚ), r.dominant = false →
        ¬ (r.mutRoll < rl * ms) → ¬ (r.mutRoll < (rl + rs) * ms) →
        inheritHue a b r ms rl rs = ratRemEuclid (hueBlend a b r.w) 360)
    ∧ (∀ (a b w : ℚ), 0 ≤ a → a < 360 → 0 ≤ b → b < 360 → 0 ≤ w → w ≤ 1 →
        hueDistance (ratRemEuclid (hueBlend a b w) 360) a = w * hueDistance a b
        ∧ hueDistance (ratRemEuclid (hueBlend a b w) 360) b
            = (1 - w) * hueDistance a b)
    ∧ (∀ w : ℚ, 3/10 ≤ w → w < 7/10 →
        hueDistance (ratRemEuclid (hueBlend 350 10 w) 360) 0 ≤ 4
        ∧ 176 ≤ hueDistance (ratRemEuclid (hueBlend 350 10 w) 360) 180) := by
  refine ⟨fun a b r ms rl rs => inheritHue_mem a b r ms rl rs,
    fun a b r ms rl rs hdom h1 h2 => ?_,
    fun a b w ha0 ha1 hb0 hb1 hw0 hw1 => hueBlend_arc a b w ha0 ha1 hb0 hb1 hw0 hw1,
    fun w hw0 hw1 => ?_⟩
  · simp [inheritHue, hdom, h1, h2]
  · have hsd : hueSignedDiff 350 10 = 20 := by norm_num [hueSignedDiff]
    have hblend : hueBlend 350 10 w = 350 + 20 * w := by
      simp only [hueBlend]; rw [hsd]
    rcases lt_or_le w (1/2) with hw | hw
    · have hself : ratRemEuclid (hueBlend 350 10 w) 360 = 350 + 20 * w := by
        rw [hblend]; exact ratRemEuclid_eq_self _ _ (by linarith) (by linarith)
      rw [hself]
      simp only [hueDistance]
      constructor
      · calc min |350 + 20 * w - 0| (360 - |350 + 20 * w - 0|)
            ≤ 360 - |350 + 20 * w - 0| := min_le_right _ _
          _ ≤ 4 := by rw [abs_of_nonneg (by linarith)]; linarith
      · refine le_min ?_ ?_
        · rw [abs_of_nonneg (by linarith)]; linarith
        · rw [abs_of_nonneg (by linarith)]; linarith
    · have hself : ratRemEuclid (hueBlend 350 10 w) 360 = 20 * w - 10 := by
        rw [hblend,
          show (350 : ℚ) + 20 * w = (20 * w - 10) + 360 * ((1 : ℤ) : ℚ) by push_cast; ring,
          ratRemEuclid_add_int_mul _ _ _ (by norm_num)]
        exact ratRemEuclid_eq_self _ _ (by linarith) (by linarith)
      rw [hself]
      simp only [hueDistance]
      constructor
      · calc min |20 * w - 10 - 0| (360 - |20 * w - 10 - 0|)
            ≤ |20 * w - 10 - 0| := min_le_left _ _
          _ ≤ 4 := by rw [abs_of_nonneg (by linarith)]; linarith
      · refine le_min ?_ ?_
        · rw [abs_of_nonpos (by linarith)]; linarith
        · rw [abs_of_nonpos (by linarith)]; linarith

/-- The RNG outcome taking the blend branch with no mutation. -/
def hueRandBlendEx : HueRand :=
  { dominant := false, pickA := true, w := 1/2, mutRoll := 99/100
    largeDelta := 0, smallDelta := 0 }

/-- Witness for C3 at parents 350° and 10° with blend weight 1/2. -/
theorem inheritHue_spec_witness :
    (0 ≤ inheritHue 350 10 hueRandBlendEx 1 (2/100) (1/10)
      ∧ inheritHue 350 10 hueRandBlendEx 1 (2/100) (1/10) < 360)
    ∧ inheritHue 350 10 hueRandBlendEx 1 (2/100) (1/10)
        = ratRemEuclid (hueBlend 350 10 (1/2)) 360
    ∧ (hueDistance (ratRemEuclid (hueBlend 350 10 (1/2)) 360) 0 ≤ 4
      ∧ 176 ≤ hueDistance (ratRemEuclid (hueBlend 350 10 (1/2)) 360) 180) :=
  ⟨inheritHue_spec.1 350 10 hueRandBlendEx 1 (2/100) (1/10),
   inheritHue_spec.2.1 350 10 hueRandBlendEx 1 (2/100) (1/10) rfl
     (by norm_num [hueRandBlendEx]) (by norm_num [hueRandBlendEx]),
   inheritHue_spec.2.2.2 (1/2) (by norm_num) (by norm_num)⟩

-- ───────────────────────────── Claim C6 ─────────────────────────────────────

theorem ratClamp_unit_of_nonpos (x : ℚ) (hx : x ≤ 0) : ratClamp x 0 1 = 0 := by
  unfold ratClamp
  rw [min_eq_left (by linarith), max_eq_left hx]

theorem stageAging_invar (f : Fish) :
    (stageAging f).health = f.health ∧ (stageAging f).behavior = f.behavior
    ∧ (stageAging f).dying_timer = f.dying_timer
    ∧ (stageAging f).is_alive = f.is_alive :=
  ⟨rfl, rfl, rfl, rfl⟩

theorem stageHunger_invar (f : Fish) (g : FishGenome) (cfg : SimulationConfig) :
    (stageHunger f g cfg).health = f.health
    ∧ (stageHunger f g cfg).behavior = f.behavior
    ∧ (stageHunger f g cfg).dying_timer = f.dying_timer
    ∧ (stageHunger f g cfg).is_alive = f.is_alive :=
  ⟨rfl, rfl, rfl, rfl⟩

theorem stageEnergy_invar (f : Fish) (g : FishGenome) (speed : ℚ) :
    (stageEnergy f g speed).health = f.health
    ∧ (stageEnergy f g speed).behavior = f.behavior
    ∧ (stageEnergy f g speed).dying_timer = f.dying_timer
    ∧ (stageEnergy f g speed).is_alive = f.is_alive := by
  unfold stageEnergy
  split_ifs <;> exact ⟨rfl, rfl, rfl, rfl⟩

theorem stageWaterHealth_invar (f : Fish) (wq : ℚ) :
    (stageWaterHealth f wq).health ≤ f.health
    ∧ (stageWaterHealth f wq).behavior = f.behavior
    ∧ (stageWaterHealth f wq).dying_timer = f.dying_timer
    ∧ (stageWaterHealth f wq).is_alive = f.is_alive := by
  unfold stageWaterHealth
  split_ifs <;> refine ⟨?_, rfl, rfl, rfl⟩ <;> simp <;> linarith

theorem stageElder_invar (f : Fish) (wq ageFrac : ℚ) (hw : wq ≤ 2) :
    (stageElder f wq ageFrac).health ≤ f.health
    ∧ (stageElder f wq ageFrac).behavior = f.behavior
    ∧ (stageElder f wq ageFrac).dying_timer = f.dying_timer
    ∧ (stageElder f wq ageFrac).is_alive = f.is_alive := by
  unfold stageElder
  split_ifs <;> refine ⟨?_, rfl, rfl, rfl⟩ <;> simp <;> linarith

theorem stageJuvenile_invar (f : Fish) (cfg : SimulationConfig) :
    (stageJuvenile f cfg).health = f.health
    ∧ (stageJuvenile f cfg).behavior = f.behavior
    ∧ (stageJuvenile f cfg).dying_timer = f.dying_timer
    ∧ (stageJuvenile f cfg).is_alive = f.is_alive := by
  have key : ∀ x : Fish, x.health = f.health → x.behavior = f.behavior →
      x.dying_timer = f.dying_timer → x.is_alive = f.is_alive →
      ((if x.juvenile_timer ≥ cfg.juvenile_duration then
          { x with is_juvenile := false } else x) : Fish).health = f.health
      ∧ ((if x.juvenile_timer ≥ cfg.juvenile_duration then
          { x with is_juvenile := false } else x) : Fish).behavior = f.behavior
      ∧ ((if x.juvenile_timer ≥ cfg.juvenile_duration then
          { x with is_juvenile := false } else x) : Fish).dying_timer = f.dying_timer
      ∧ ((if x.juvenile_timer ≥ cfg.juvenile_duration then
          { x with is_juvenile := false } else x) : Fish).is_alive = f.is_alive := by
    intro x h1 h2 h3 h4
    by_cases hc : x.juvenile_timer ≥ cfg.juvenile_duration
    · rw [if_pos hc]; exact ⟨h1, h2, h3, h4⟩
    · rw [if_neg hc]; exact ⟨h1, h2, h3, h4⟩
  by_cases hj : f.is_juvenile
  · have : stageJuvenile f cfg
        = (if ({ f with juvenile_timer := f.juvenile_timer + 1 } : Fish).juvenile_timer
              ≥ cfg.juvenile_duration then
            { { f with juvenile_timer := f.juvenile_timer + 1 } with is_juvenile := false }
          else { f with juvenile_timer := f.juvenile_timer + 1 }) := by
      unfold stageJuvenile
      rw [if_pos hj]
    rw [this]
    exact key _ rfl rfl rfl rfl
  · have : stageJuvenile f cfg = f := by
      unfold stageJuvenile
      rw [if_neg hj]
    rw [this]
    exact ⟨rfl, rfl, rfl, rfl⟩

theorem stageStress_invar (f : Fish) :
    (stageStress f).health ≤ f.health
    ∧ (stageStress f).behavior = f.behavior
    ∧ (stageStress f).dying_timer = f.dying_timer
    ∧ (stageStress f).is_alive = f.is_alive := by
  have key : ∀ x : Fish, x.health = f.health → x.behavior = f.behavior →
      x.dying_timer = f.dying_timer → x.is_alive = f.is_alive →
      ((if x.stress > 1/2 then { x with health := x.health - 2/10000 } else x) : Fish).health
          ≤ f.health
      ∧ ((if x.stress > 1/2 then { x with health := x.health - 2/10000 } else x) : Fish).behavior
          = f.behavior
      ∧ ((if x.stress > 1/2 then { x with health := x.health - 2/10000 } else x) : Fish).dying_timer
          = f.dying_timer
      ∧ ((if x.stress > 1/2 then { x with health := x.health - 2/10000 } else x) : Fish).is_alive
          = f.is_alive := by
    intro x h1 h2 h3 h4
    by_cases hc : x.stress > 1/2
    · rw [if_pos hc]
      refine ⟨?_, h2, h3, h4⟩
      show x.health - 2/10000 ≤ f.health
      rw [h1] at *
      linarith
    · rw [if_neg hc]; exact ⟨le_of_eq h1, h2, h3, h4⟩
  by_cases hs : f.stress > 0
  · have : stageStress f
        = (if ({ f with stress := max (f.stress - 1/1000) 0 } : Fish).stress > 1/2 then
            { { f with stress := max (f.stress - 1/1000) 0 } with
                health := ({ f with stress := max (f.stress - 1/1000) 0 } : Fish).health - 2/10000 }
          else { f with stress := max (f.stress - 1/1000) 0 }) := by
      unfold stageStress
      rw [if_pos hs]
    rw [this]
    exact key _ rfl rfl rfl rfl
  · have : stageStress f
        = (if f.stress > 1/2 then { f with health := f.health - 2/10000 } else f) := by
      unfold stageStress
      rw [if_neg hs]
    rw [this]
    exact key f rfl rfl rfl rfl

theorem stageTapFlee_invar (f : Fish) :
    (stageTapFlee f).health = f.health
    ∧ ((stageTapFlee f).behavior = .Dying ↔ f.behavior = .Dying)
    ∧ (stageTapFlee f).dying_timer = f.dying_timer
    ∧ (stageTapFlee f).is_alive = f.is_alive := by
  by_cases h1 : f.tap_flee_timer > 0
  · have hrw : stageTapFlee f
        = (if ({ f with tap_flee_timer := f.tap_flee_timer - 1 } : Fish).tap_flee_timer = 0
              ∧ ({ f with tap_flee_timer := f.tap_flee_timer - 1 } : Fish).behavior = .Fleeing
              ∧ ({ f with tap_flee_timer := f.tap_flee_timer - 1 } : Fish).fleeing_from = none then
            { { f with tap_flee_timer := f.tap_flee_timer - 1 } with behavior := .Swimming }
          else { f with tap_flee_timer := f.tap_flee_timer - 1 }) := by
      unfold stageTapFlee
      rw [if_pos h1]
    rw [hrw]
    by_cases h2 : ({ f with tap_flee_timer := f.tap_flee_timer - 1 } : Fish).tap_flee_timer = 0
        ∧ ({ f with tap_flee_timer := f.tap_flee_timer - 1 } : Fish).behavior = .Fleeing
        ∧ ({ f with tap_flee_timer := f.tap_flee_timer - 1 } : Fish).fleeing_from = none
    · rw [if_pos h2]
      obtain ⟨-, hfleeing, -⟩ := h2
      have hfb : f.behavior = .Fleeing := hfleeing
      refine ⟨rfl, ?_, rfl, rfl⟩
      constructor
      · intro h; exact absurd h (by simp)
      · intro h; rw [hfb] at h; exact absurd h (by simp)
    · rw [if_neg h2]
      exact ⟨rfl, Iff.rfl, rfl, rfl⟩
  · have hrw : stageTapFlee f = f := by
      unfold stageTapFlee
      rw [if_neg h1]
    rw [hrw]
    exact ⟨rfl, Iff.rfl, rfl, rfl⟩

theorem stageStarvation_invar (f : Fish) :
    (stageStarvation f).health = f.health
    ∧ (stageStarvation f).behavior = f.behavior
    ∧ (stageStarvation f).dying_timer = f.dying_timer
    ∧ (stageStarvation f).is_alive = f.is_alive := by
  unfold stageStarvation
  split_ifs <;> exact ⟨rfl, rfl, rfl, rfl⟩

theorem stageClampHealth_invar (f : Fish) :
    (stageClampHealth f).health = ratClamp f.health 0 1
    ∧ (stageClampHealth f).behavior = f.behavior
    ∧ (stageClampHealth f).dying_timer = f.dying_timer
    ∧ (stageClampHealth f).is_alive = f.is_alive :=
  ⟨rfl, rfl, rfl, rfl⟩

/-- Through the whole pre-transition part of `update_behavior`, a fish
with non-positive health (in water of quality ≤ 2) ends at health
exactly 0 with behaviour (up to the Dying tag), dying timer and
liveness untouched. -/
theorem envChain_invar (f : Fish) (g : FishGenome) (cfg : SimulationConfig)
    (wq ageFrac speed : ℚ) (hw : wq ≤ 2) (hh : f.health ≤ 0) :
    (stageClampHealth (stageStarvation (stageTapFlee (stageStress (stageJuvenile
      (stageElder (stageWaterHealth (stageEnergy (stageHunger (stageAging f) g cfg)
        g speed) wq) wq ageFrac) cfg))))).health = 0
    ∧ ((stageClampHealth (stageStarvation (stageTapFlee (stageStress (stageJuvenile
        (stageElder (stageWaterHealth (stageEnergy (stageHunger (stageAging f) g cfg)
          g speed) wq) wq ageFrac) cfg))))).behavior = .Dying ↔ f.behavior = .Dying)
    ∧ (stageClampHealth (stageStarvation (stageTapFlee (stageStress (stageJuvenile
        (stageElder (stageWaterHealth (stageEnergy (stageHunger (stageAging f) g cfg)
          g speed) wq) wq ageFrac) cfg))))).dying_timer = f.dying_timer
    ∧ (stageClampHealth (stageStarvation (stageTapFlee (stageStress (stageJuvenile
        (stageElder (stageWaterHealth (stageEnergy (stageHunger (stageAging f) g cfg)
          g speed) wq) wq ageFrac) cfg))))).is_alive = f.is_alive := by
  obtain ⟨h1h, h1b, h1d, h1a⟩ := stageAging_invar f
  obtain ⟨h2h, h2b, h2d, h2a⟩ := stageHunger_invar (stageAging f) g cfg
  obtain ⟨h3h, h3b, h3d, h3a⟩ := stageEnergy_invar (stageHunger (stageAging f) g cfg) g speed
  obtain ⟨h4h, h4b, h4d, h4a⟩ :=
    stageWaterHealth_invar (stageEnergy (stageHunger (stageAging f) g cfg) g speed) wq
  obtain ⟨h5h, h5b, h5d, h5a⟩ :=
    stageElder_invar (stageWaterHealth (stageEnergy (stageHunger (stageAging f) g cfg)
      g speed) wq) wq ageFrac hw
  obtain ⟨h6h, h6b, h6d, h6a⟩ :=
    stageJuvenile_invar (stageElder (stageWaterHealth (stageEnergy (stageHunger
      (stageAging f) g cfg) g speed) wq) wq ageFrac) cfg
  obtain ⟨h7h, h7b, h7d, h7a⟩ :=
    stageStress_invar (stageJuvenile (stageElder (stageWaterHealth (stageEnergy
      (stageHunger (stageAging f) g cfg) g speed) wq) wq ageFrac) cfg)
  obtain ⟨h8h, h8b, h8d, h8a⟩ :=
    stageTapFlee_invar (stageStress (stageJuvenile (stageElder (stageWaterHealth
      (stageEnergy (stageHunger (stageAging f) g cfg) g speed) wq) wq ageFrac) cfg))
  obtain ⟨h9h, h9b, h9d, h9a⟩ :=
    stageStarvation_invar (stageTapFlee (stageStress (stageJuvenile (stageElder
      (stageWaterHealth (stageEnergy (stageHunger (stageAging f) g cfg) g speed) wq)
      wq ageFrac) cfg)))
  obtain ⟨h10h, h10b, h10d, h10a⟩ :=
    stageClampHealth_invar (stageStarvation (stageTapFlee (stageStress (stageJuvenile
      (stageElder (stageWaterHealth (stageEnergy (stageHunger (stageAging f) g cfg)
        g speed) wq) wq ageFrac) cfg))))
  have hhealth : (stageStarvation (stageTapFlee (stageStress (stageJuvenile (stageElder
      (stageWaterHealth (stageEnergy (stageHunger (stageAging f) g cfg) g speed) wq)
      wq ageFrac) cfg)))).health ≤ 0 := by
    rw [h9h, h8h]
    calc (stageStress _).health ≤ _ := h7h
      _ = _ := h6h
      _ ≤ _ := h5h
      _ ≤ _ := h4h
      _ = f.health := by rw [h3h, h2h, h1h]
      _ ≤ 0 := hh
  refine ⟨?_, ?_, ?_, ?_⟩
  · rw [h10h, ratClamp_unit_of_nonpos _ hhealth]
  · rw [h10b, h9b]
    rw [h7b, h6b, h5b, h4b, h3b, h2b, h1b] at h8b
    exact h8b
  · rw [h10d, h9d, h8d, h7d, h6d, h5d, h4d, h3d, h2d, h1d]
  · rw [h10a, h9a, h8a, h7a, h6a, h5a, h4a, h3a, h2a, h1a]

theorem dyingCheck_of_nonpos (f : Fish) (ageFrac : ℚ) (hh : f.health ≤ 0) :
    dyingCheck f ageFrac
      = (if f.behavior ≠ .Dying then { f with behavior := .Dying, dying_timer := 0 }
         else f) := by
  unfold dyingCheck
  rw [if_pos (Or.inl hh)]

/-- The Dying branch of the per-state match: the timer advances and the
fish is reaped once it reaches the 90-tick grace period. -/
theorem stateMatch_dying (f : Fish) (g : FishGenome) (cfg : SimulationConfig)
    (hasP : Bool) (mate : Option ℕ) (tod : ℚ) (hb : f.behavior = .Dying) :
    (stateMatch f g cfg hasP mate tod).health = f.health
    ∧ (stateMatch f g cfg hasP mate tod).behavior = .Dying
    ∧ (stateMatch f g cfg hasP mate tod).dying_timer = f.dying_timer + 1
    ∧ (stateMatch f g cfg hasP mate tod).is_alive
        = (if 90 ≤ f.dying_timer + 1 then false else f.is_alive) := by
  have hrw : stateMatch f g cfg hasP mate tod
      = (if ({ f with dying_timer := f.dying_timer + 1 } : Fish).dying_timer ≥ 90 then
          { { f with dying_timer := f.dying_timer + 1 } with is_alive := false }
        else { f with dying_timer := f.dying_timer + 1 }) := by
    unfold stateMatch
    split
    case h_1 h => rfl
    all_goals rename_i h _ <;> first
      | (exfalso; rw [hb] at *; simp_all)
  rw [hrw]
  by_cases h90 : ({ f with dying_timer := f.dying_timer + 1 } : Fish).dying_timer ≥ 90
  · rw [if_pos h90]
    have h90' : 90 ≤ f.dying_timer + 1 := h90
    exact ⟨rfl, hb, rfl, by rw [if_pos h90']⟩
  · rw [if_neg h90]
    have h90' : ¬ (90 ≤ f.dying_timer + 1) := h90
    exact ⟨rfl, hb, rfl, by rw [if_neg h90']⟩

/-- One `update_behavior` call on a fish with non-positive health: the
fish ends Dying at health 0, the dying timer advances (restarting at 0
if it was not yet Dying), and it is reaped once the timer reaches the
90-tick grace period. -/
theorem updateBehavior_dying (f : Fish) (g : FishGenome) (cfg : SimulationConfig)
    (tick : ℕ) (hasP : Bool) (mate : Option ℕ) (bl : ℕ) (wq tod speed : ℚ)
    (hh : f.health ≤ 0) (hw : wq ≤ 2) :
    (updateBehavior f g cfg tick hasP mate bl wq tod speed).health = 0
    ∧ (updateBehavior f g cfg tick hasP mate bl wq tod speed).behavior = .Dying
    ∧ (updateBehavior f g cfg tick hasP mate bl wq tod speed).dying_timer
        = (if f.behavior = .Dying then f.dying_timer else 0) + 1
    ∧ (updateBehavior f g cfg tick hasP mate bl wq tod speed).is_alive
        = (if 90 ≤ (if f.behavior = .Dying then f.dying_timer else 0) + 1
           then false else f.is_alive) := by
  obtain ⟨eh, eb, ed, ea⟩ := envChain_invar f g cfg wq (ageFraction f g bl) speed hw hh
  have key : ∀ E : Fish, E.health = 0 → (E.behavior = .Dying ↔ f.behavior = .Dying) →
      E.dying_timer = f.dying_timer → E.is_alive = f.is_alive →
      (stateMatch (dyingCheck E (ageFraction f g bl)) g cfg hasP mate tod).health = 0
      ∧ (stateMatch (dyingCheck E (ageFraction f g bl)) g cfg hasP mate tod).behavior = .Dying
      ∧ (stateMatch (dyingCheck E (ageFraction f g bl)) g cfg hasP mate tod).dying_timer
          = (if f.behavior = .Dying then f.dying_timer else 0) + 1
      ∧ (stateMatch (dyingCheck E (ageFraction f g bl)) g cfg hasP mate tod).is_alive
          = (if 90 ≤ (if f.behavior = .Dying then f.dying_timer else 0) + 1
             then false else f.is_alive) := by
    intro E hE1 hE2 hE3 hE4
    by_cases hd : E.behavior = .Dying
    · have hfd : f.behavior = .Dying := hE2.mp hd
      rw [dyingCheck_of_nonpos E _ (le_of_eq hE1), if_neg (by simp [hd])]
      obtain ⟨m1, m2, m3, m4⟩ := stateMatch_dying E g cfg hasP mate tod hd
      refine ⟨by rw [m1, hE1], m2, ?_, ?_⟩
      · rw [m3, hE3, if_pos hfd]
      · rw [m4, hE3, hE4, if_pos hfd]
    · have hfd : ¬ f.behavior = .Dying := fun hc => hd (hE2.mpr hc)
      rw [dyingCheck_of_nonpos E _ (le_of_eq hE1), if_pos hd]
      obtain ⟨m1, m2, m3, m4⟩ := stateMatch_dying
        { E with behavior := .Dying, dying_timer := 0 } g cfg hasP mate tod rfl
      refine ⟨by rw [m1]; exact hE1, m2, ?_, ?_⟩
      · rw [m3, if_neg hfd]
      · rw [m4, if_neg hfd]
        have h1 : ¬ ((90 : ℕ) ≤ 0 + 1) := by norm_num
        rw [if_neg h1, if_neg (by simpa using h1)]
        exact hE4
  exact key _ eh eb ed ea

/-- The dying invariant propagated through iterated calls: after `n ≥ 1`
calls starting from health 0, the fish is Dying with timer at least `n`
and is no longer alive once `n` reaches the 90-tick grace period. -/
theorem updateIter_invar (g : FishGenome) (cfg : SimulationConfig) (bl : ℕ)
    (wq tod : ℚ) (speeds : ℕ → ℚ) (f : Fish)
    (hh : f.health = 0) (hw : wq ≤ 2) :
    ∀ n, 1 ≤ n →
      (updateIter g cfg bl wq tod speeds f n).health = 0
      ∧ (updateIter g cfg bl wq tod speeds f n).behavior = .Dying
      ∧ n ≤ (updateIter g cfg bl wq tod speeds f n).dying_timer
      ∧ (90 ≤ n → (updateIter g cfg bl wq tod speeds f n).is_alive = false) := by
  intro n hn
  induction n with
  | zero => omega
  | succ m ih =>
    rcases Nat.eq_or_lt_of_le hn with h1 | h1
    · -- m = 0 : the first call
      have hm : m = 0 := by omega
      subst hm
      obtain ⟨uh, ub, ud, ua⟩ := updateBehavior_dying f g cfg 0 false none bl wq tod
        (speeds 0) (le_of_eq hh) hw
      refine ⟨uh, ub, ?_, ?_⟩
      · show 1 ≤ _
        simp only [updateIter]
        rw [ud]; omega
      · intro h90; omega
    · have hm1 : 1 ≤ m := by omega
      obtain ⟨ph, pb, pd, pa⟩ := ih hm1
      obtain ⟨uh, ub, ud, ua⟩ := updateBehavior_dying
        (updateIter g cfg bl wq tod speeds f m) g cfg m false none bl wq tod
        (speeds m) (le_of_eq ph) hw
      refine ⟨uh, ub, ?_, ?_⟩
      · show m + 1 ≤ _
        simp only [updateIter]
        rw [ud, if_pos pb]
        omega
      · intro h90
        show (updateIter g cfg bl wq tod speeds f (m + 1)).is_alive = false
        simp only [updateIter]
        rw [ua, if_pos pb]
        rw [if_pos (by omega)]

/-- C6: a fish whose health is 0 at tick 0, with no nearby predators or
mates (and water quality in the modelled `[0,1]` band), is in the Dying
state after the first `update_behavior` call, is not alive after any
`n ≥ 90` calls (the fixed ~90-tick grace period), and in particular is
not alive by tick 200. -/
theorem zero_health_dies_within_grace (f : Fish) (g : FishGenome)
    (cfg : SimulationConfig) (bl : ℕ) (wq tod : ℚ) (speeds : ℕ → ℚ)
    (hh : f.health = 0) (hw0 : 0 ≤ wq) (hw : wq ≤ 1) :
    (updateIter g cfg bl wq tod speeds f 1).behavior = .Dying
    ∧ (∀ n, 90 ≤ n → (updateIter g cfg bl wq tod speeds f n).is_alive = false)
    ∧ (updateIter g cfg bl wq tod speeds f 200).is_alive = false := by
  have h1 := updateIter_invar g cfg bl wq tod speeds f hh (by linarith) 1 (by norm_num)
  have hdead : ∀ n, 90 ≤ n →
      (updateIter g cfg bl wq tod speeds f n).is_alive = false := by
    intro n h90
    exact (updateIter_invar g cfg bl wq tod speeds f hh (by linarith) n (by omega)).2.2.2 h90
  exact ⟨h1.2.1, hdead, hdead 200 (by norm_num)⟩

/-- Witness for C6: the concrete `Fish::new` state with health forced
to 0, default config, ideal water, noon, zero speed oracle. -/
theorem zero_health_dies_within_grace_witness :
    (updateIter genomeParentA defaultConfig 20000 1 12 (fun _ => 0)
        { fishNew 1 1 100 100 0 0 with health := 0 } 1).behavior = .Dying
    ∧ (∀ n, 90 ≤ n → (updateIter genomeParentA defaultConfig 20000 1 12 (fun _ => 0)
        { fishNew 1 1 100 100 0 0 with health := 0 } n).is_alive = false)
    ∧ (updateIter genomeParentA defaultConfig 20000 1 12 (fun _ => 0)
        { fishNew 1 1 100 100 0 0 with health := 0 } 200).is_alive = false :=
  zero_health_dies_within_grace _ genomeParentA defaultConfig 20000 1 12 (fun _ => 0)
    rfl (by norm_num) (by norm_num)

-- ───────────────────────────── Claim C7 ─────────────────────────────────────

/-- C7: whenever the two looked-up fish are alive and distinct but
their genomes have the same sex, `force_breed` returns the validation
error "Must be opposite sex" and leaves the manager state, the fish
list and the genome table exactly unchanged. -/
theorem forceBreed_same_sex_no_mutation
    (st : EcoState) (fish : List Fish) (genomes : GenomeTable)
    (cfg : SimulationConfig) (tick : ℕ) (rand : InheritRand)
    (aId bId gCtr eCtr : ℕ) (aIdx bIdx : ℕ) (ga gb : FishGenome)
    (ha : fish.findIdx? (fun f => f.id == aId && f.is_alive) = some aIdx)
    (hb : fish.findIdx? (fun f => f.id == bId && f.is_alive) = some bIdx)
    (hne : aIdx ≠ bIdx)
    (hga : lookupG genomes (fish.getD aIdx default).genome_id = some ga)
    (hgb : lookupG genomes (fish.getD bIdx default).genome_id = some gb)
    (hsex : ga.sex = gb.sex) :
    forceBreed st fish genomes cfg tick rand aId bId gCtr eCtr
      = (.error "Must be opposite sex", st, fish, genomes) := by
  unfold forceBreed
  simp only [ha, hb, hga, hgb]
  rw [if_neg hne, if_pos hsex]

/-- A living fish bound to genome 1, placed at (10, 10). -/
def fishAliveA : Fish := fishNew 1 1 10 10 0 0

/-- A living fish bound to genome 2, placed at (20, 10). -/
def fishAliveB : Fish := fishNew 2 2 20 10 0 0

/-- A second male genome sharing all traits with `genomeParentA`. -/
def genomeMale2 : FishGenome := { genomeParentA with id := 2 }

/-- A genome table binding ids 1 and 2 to the two male genomes. -/
def tableTwoMales : GenomeTable := [(1, genomeParentA), (2, genomeMale2)]

/-- An empty manager state with ideal water. -/
def stateEmpty : EcoState :=
  { eggs := [], water_quality := 1, species := [], events := []
    decorations := [], next_species_id := 1 }

/-- Witness for C7: two living male fish; force-breed errors out and
the state triple is returned unchanged. -/
theorem forceBreed_same_sex_no_mutation_witness :
    forceBreed stateEmpty [fishAliveA, fishAliveB] tableTwoMales defaultConfig 5
        inheritRandEx 1 2 50 60
      = (.error "Must be opposite sex", stateEmpty, [fishAliveA, fishAliveB], tableTwoMales) :=
  forceBreed_same_sex_no_mutation stateEmpty [fishAliveA, fishAliveB] tableTwoMales
    defaultConfig 5 inheritRandEx 1 2 50 60 0 1 genomeParentA genomeMale2
    rfl rfl (by norm_num) rfl rfl rfl

-- ───────────────────────────── Claim C10 ────────────────────────────────────

theorem swapRemove_length {α : Type} [Inhabited α] (l : List α) (i : ℕ) :
    (swapRemove l i).length = l.length - 1 := by
  unfold swapRemove
  rw [List.length_dropLast, List.length_set]

theorem getLastD_eq_getD {α : Type} [Inhabited α] (l : List α) :
    l.getLastD default = l.getD (l.length - 1) default := by
  cases l with
  | nil => rfl
  | cons a t =>
    rw [List.getLastD_eq_getLast?, List.getLast?_eq_getElem?,
      List.getD_eq_getElem?_getD]

theorem getD_swapRemove {α : Type} [Inhabited α] (l : List α) (i j : ℕ)
    (hj : j < l.length - 1) :
    (swapRemove l i).getD j default
      = if j = i then l.getD (l.length - 1) default else l.getD j default := by
  unfold swapRemove
  rw [List.getD_eq_getElem?_getD, List.dropLast_eq_take, List.getElem?_take,
    List.length_set, if_pos hj]
  by_cases hij : j = i
  · subst hij
    rw [List.getElem?_set_eq_of_lt _ (by omega), if_pos rfl, getLastD_eq_getD]
    rfl
  · rw [List.getElem?_set_ne (Ne.symm hij), if_neg hij, List.getD_eq_getElem?_getD]

/-- The hatch loop of `process_eggs`, run on a strictly descending list
of indices that are exactly the hatched positions: afterwards no
hatched egg remains, every appended fish has a present genome, and
every appended event is a `Birth` for a present genome. -/
theorem hatchLoop_spec (genomes : GenomeTable) (rand : ℕ → NewFishRand)
    (hatchTime : ℕ) :
    ∀ (idxs : List ℕ) (l : List Egg) (fish : List Fish) (events : List SimEvent)
      (ctr k : ℕ),
      idxs.Pairwise (· > ·) →
      (∀ i ∈ idxs, i < l.length ∧ hatchTime ≤ (l.getD i default).age) →
      (∀ j, j < l.length → j ∉ idxs → ¬ hatchTime ≤ (l.getD j default).age) →
      (∀ e ∈ (hatchLoop genomes rand idxs (l, fish, events, ctr, k)).1,
        ¬ hatchTime ≤ e.age)
      ∧ (∃ newF, (hatchLoop genomes rand idxs (l, fish, events, ctr, k)).2.1
            = fish ++ newF
          ∧ ∀ nf ∈ newF, (lookupG genomes nf.genome_id).isSome = true)
      ∧ (∃ newE, (hatchLoop genomes rand idxs (l, fish, events, ctr, k)).2.2.1
            = events ++ newE
          ∧ ∀ ev ∈ newE, ∃ fid gid pa pb, ev = .Birth fid gid pa pb
              ∧ (lookupG genomes gid).isSome = true) := by
  intro idxs
  induction idxs with
  | nil =>
    intro l fish events ctr k _ _ hc
    simp only [hatchLoop]
    refine ⟨?_, ⟨[], by simp, by simp⟩, ⟨[], by simp, by simp⟩⟩
    intro e he hP
    obtain ⟨j, hj, hje⟩ := List.mem_iff_getElem.mp he
    refine hc j hj (by simp) ?_
    rw [List.getD_eq_getElem?_getD, List.getElem?_eq_getElem hj]
    simpa [hje] using hP
  | cons i rest ih =>
    intro l fish events ctr k hpw hb hc
    obtain ⟨hilen, hiP⟩ := hb i (by simp)
    have hipos : ∀ j ∈ rest, j < i := fun j hj => (List.pairwise_cons.mp hpw).1 j hj
    have hpw' := (List.pairwise_cons.mp hpw).2
    have hlen' : (swapRemove l i).length = l.length - 1 := swapRemove_length l i
    have hb' : ∀ j ∈ rest, j < (swapRemove l i).length
        ∧ hatchTime ≤ ((swapRemove l i).getD j default).age := by
      intro j hj
      have hji : j < i := hipos j hj
      have hjlen : j < l.length - 1 := by omega
      refine ⟨by omega, ?_⟩
      rw [getD_swapRemove l i j hjlen, if_neg (by omega)]
      exact (hb j (by simp [hj])).2
    have hc' : ∀ j, j < (swapRemove l i).length → j ∉ rest →
        ¬ hatchTime ≤ ((swapRemove l i).getD j default).age := by
      intro j hjlen hj
      rw [hlen'] at hjlen
      rw [getD_swapRemove l i j hjlen]
      by_cases hji : j = i
      · rw [if_pos hji]
        have hii : i < l.length - 1 := by omega
        have hnotin : (l.length - 1) ∉ (i :: rest) := by
          intro hmem
          rcases List.mem_cons.mp hmem with h | h
          · omega
          · exact absurd (hipos _ h) (by omega)
        exact hc (l.length - 1) (by omega) hnotin
      · rw [if_neg hji]
        refine hc j (by omega) ?_
        intro hmem
        rcases List.mem_cons.mp hmem with h | h
        · exact hji h
        · exact hj h
    simp only [hatchLoop]
    by_cases hlook : (lookupG genomes ((l.getD i default).genome_id)).isSome = true
    · rw [if_pos hlook]
      obtain ⟨g1, g2, g3⟩ := ih (swapRemove l i)
        (fish ++ [hatchChild ctr (l.getD i default).genome_id (l.getD i default).x
            (l.getD i default).y (rand k)])
        (events ++ [SimEvent.Birth
            (hatchChild ctr (l.getD i default).genome_id (l.getD i default).x
              (l.getD i default).y (rand k)).id
            (l.getD i default).genome_id
            (l.getD i default).parent_a_genome (l.getD i default).parent_b_genome])
        (ctr + 1) (k + 1) hpw' hb' hc'
      refine ⟨g1, ?_, ?_⟩
      · obtain ⟨nf, hnf, hnfP⟩ := g2
        refine ⟨_ :: nf, by rw [hnf, List.append_assoc, List.singleton_append], ?_⟩
        intro nf' hnf'
        rcases List.mem_cons.mp hnf' with h | h
        · subst h; exact hlook
        · exact hnfP _ h
      · obtain ⟨ne, hne, hneP⟩ := g3
        refine ⟨_ :: ne, by rw [hne, List.append_assoc, List.singleton_append], ?_⟩
        intro ev hev
        rcases List.mem_cons.mp hev with h | h
        · subst h
          exact ⟨_, (l.getD i default).genome_id, (l.getD i default).parent_a_genome,
            (l.getD i default).parent_b_genome, rfl, hlook⟩
        · exact hneP _ h
    · rw [if_neg hlook]
      exact ih (swapRemove l i) fish events ctr k hpw' hb' hc'

/-- C10: when an egg reaches hatch time but its child genome id is
missing from the genome table, `process_eggs` drops the egg silently:
no egg at or past hatch age remains in the list (so the egg is removed
and not retried), no spawned fish carries the missing genome id, and no
Birth event for it is emitted. -/
theorem processEggs_missing_genome (st : EcoState) (fish : List Fish)
    (genomes : GenomeTable) (cfg : SimulationConfig) (rand : ℕ → NewFishRand)
    (fishIdCtr : ℕ) (e : Egg) (he : e ∈ st.eggs)
    (hhatch : cfg.egg_hatch_time ≤ e.age + 1)
    (hmiss : lookupG genomes e.genome_id = none) :
    (∀ e' ∈ (processEggs st fish genomes cfg rand fishIdCtr).1.eggs,
        e'.age < cfg.egg_hatch_time)
    ∧ (ageEgg e ∉ (processEggs st fish genomes cfg rand fishIdCtr).1.eggs)
    ∧ (∀ f' ∈ (processEggs st fish genomes cfg rand fishIdCtr).2,
        f' ∈ fish ∨ f'.genome_id ≠ e.genome_id)
    ∧ (∀ ev ∈ (processEggs st fish genomes cfg rand fishIdCtr).1.events,
        ev ∈ st.events ∨ ∀ fid pa pb, ev ≠ .Birth fid e.genome_id pa pb) := by
  have h1 : (((List.range (st.eggs.map ageEgg).length).filter
      (fun i => ((st.eggs.map ageEgg).getD i default).age
        ≥ cfg.egg_hatch_time)).reverse).Pairwise (· > ·) := by
    rw [List.pairwise_reverse]
    exact List.Pairwise.filter _ (List.pairwise_lt_range _)
  have h2 : ∀ i ∈ (((List.range (st.eggs.map ageEgg).length).filter
      (fun i => ((st.eggs.map ageEgg).getD i default).age
        ≥ cfg.egg_hatch_time)).reverse),
      i < (st.eggs.map ageEgg).length
      ∧ cfg.egg_hatch_time
          ≤ ((st.eggs.map ageEgg).getD i default).age := by
    intro i hi
    rw [List.mem_reverse, List.mem_filter, List.mem_range] at hi
    refine ⟨hi.1, ?_⟩
    have := hi.2
    simp only [ge_iff_le, decide_eq_true_eq] at this
    exact this
  have h3 : ∀ j, j < (st.eggs.map ageEgg).length →
      j ∉ (((List.range (st.eggs.map ageEgg).length).filter
        (fun i => ((st.eggs.map ageEgg).getD i default).age
          ≥ cfg.egg_hatch_time)).reverse) →
      ¬ cfg.egg_hatch_time
          ≤ ((st.eggs.map ageEgg).getD j default).age := by
    intro j hj hnot hP
    apply hnot
    rw [List.mem_reverse, List.mem_filter, List.mem_range]
    refine ⟨hj, ?_⟩
    simp only [ge_iff_le, decide_eq_true_eq]
    exact hP
  obtain ⟨s1, ⟨nf, hnf, hnfP⟩, ⟨ne, hne, hneP⟩⟩ :=
    hatchLoop_spec genomes rand cfg.egg_hatch_time
      (((List.range (st.eggs.map ageEgg).length).filter
        (fun i => ((st.eggs.map ageEgg).getD i default).age
          ≥ cfg.egg_hatch_time)).reverse)
      (st.eggs.map ageEgg) fish st.events fishIdCtr 0
      h1 h2 h3
  have heggs : (processEggs st fish genomes cfg rand fishIdCtr).1.eggs
      = (hatchLoop genomes rand
          (((List.range (st.eggs.map ageEgg).length).filter
            (fun i => ((st.eggs.map ageEgg).getD i default).age
              ≥ cfg.egg_hatch_time)).reverse)
          (st.eggs.map ageEgg,
          fish, st.events, fishIdCtr, 0)).1 := rfl
  have hfish : (processEggs st fish genomes cfg rand fishIdCtr).2
      = (hatchLoop genomes rand
          (((List.range (st.eggs.map ageEgg).length).filter
            (fun i => ((st.eggs.map ageEgg).getD i default).age
              ≥ cfg.egg_hatch_time)).reverse)
          (st.eggs.map ageEgg,
          fish, st.events, fishIdCtr, 0)).2.1 := rfl
  have hevs : (processEggs st fish genomes cfg rand fishIdCtr).1.events
      = (hatchLoop genomes rand
          (((List.range (st.eggs.map ageEgg).length).filter
            (fun i => ((st.eggs.map ageEgg).getD i default).age
              ≥ cfg.egg_hatch_time)).reverse)
          (st.eggs.map ageEgg,
          fish, st.events, fishIdCtr, 0)).2.2.1 := rfl
  refine ⟨?_, ?_, ?_, ?_⟩
  · intro e' he'
    rw [heggs] at he'
    exact Nat.lt_of_not_le (s1 e' he')
  · intro hmem
    rw [heggs] at hmem
    exact s1 _ hmem (by simpa using hhatch)
  · intro f' hf'
    rw [hfish, hnf] at hf'
    rcases List.mem_append.mp hf' with h | h
    · exact Or.inl h
    · right
      intro hgid
      have := hnfP _ h
      rw [hgid, hmiss] at this
      simp at this
  · intro ev hev
    rw [hevs, hne] at hev
    rcases List.mem_append.mp hev with h | h
    · exact Or.inl h
    · right
      intro fid pa pb hevEq
      obtain ⟨fid', gid', pa', pb', hBirth, hsome⟩ := hneP _ h
      rw [hevEq] at hBirth
      injection hBirth with h1 h2 h3 h4
      rw [← h2, hmiss] at hsome
      simp at hsome

/-- An egg one tick short of hatching, bound to an absent genome id. -/
def orphanEgg : Egg :=
  { id := 7, genome_id := 999, x := 100, y := 100, age := 179
    parent_a_genome := 1, parent_b_genome := 2 }

/-- Witness for C10: a single egg reaching the default 180-tick hatch
time with no genome-table entry; the hatch is silently dropped. -/
theorem processEggs_missing_genome_witness :
    (∀ e' ∈ (processEggs { stateEmpty with eggs := [orphanEgg] } [] [] defaultConfig
        (fun _ => ⟨0, 0⟩) 10).1.eggs, e'.age < defaultConfig.egg_hatch_time)
    ∧ (ageEgg orphanEgg
        ∉ (processEggs { stateEmpty with eggs := [orphanEgg] } [] [] defaultConfig
            (fun _ => ⟨0, 0⟩) 10).1.eggs)
    ∧ (∀ f' ∈ (processEggs { stateEmpty with eggs := [orphanEgg] } [] [] defaultConfig
        (fun _ => ⟨0, 0⟩) 10).2, f' ∈ ([] : List Fish) ∨ f'.genome_id ≠ orphanEgg.genome_id)
    ∧ (∀ ev ∈ (processEggs { stateEmpty with eggs := [orphanEgg] } [] [] defaultConfig
        (fun _ => ⟨0, 0⟩) 10).1.events,
        ev ∈ ({ stateEmpty with eggs := [orphanEgg] } : EcoState).events
        ∨ ∀ fid pa pb, ev ≠ .Birth fid orphanEgg.genome_id pa pb) :=
  processEggs_missing_genome { stateEmpty with eggs := [orphanEgg] } [] [] defaultConfig
    (fun _ => ⟨0, 0⟩) 10 orphanEgg (by simp) (by norm_num [orphanEgg, defaultConfig]) rfl

-- ───────────────────────────── Claim C1 ─────────────────────────────────────

theorem reproAccPush_fish_length (cfg : SimulationConfig) (tick : ℕ)
    (decorations : List Decoration) (rand : ℕ → PairRand) (acc : ReproAcc)
    (i partnerIdx partnerId : ℕ) (ga gb : FishGenome) :
    (reproAccPush cfg tick decorations rand acc i partnerIdx partnerId ga gb).fish.length
      = acc.fish.length := by
  simp [reproAccPush, List.length_set]

theorem reproAccPush_newEggs_length (cfg : SimulationConfig) (tick : ℕ)
    (decorations : List Decoration) (rand : ℕ → PairRand) (acc : ReproAcc)
    (i partnerIdx partnerId : ℕ) (ga gb : FishGenome) :
    (reproAccPush cfg tick decorations rand acc i partnerIdx partnerId ga gb).newEggs.length
      = acc.newEggs.length + 1 := by
  simp [reproAccPush]

/-- The reproduction loop never changes the number of fish. -/
theorem reproLoop_fish_length (cfg : SimulationConfig) (tick : ℕ)
    (decorations : List Decoration) (genomes : GenomeTable)
    (rand : ℕ → PairRand) (eggs0Len cap : ℕ) :
    ∀ (idxs : List ℕ) (acc : ReproAcc),
      (reproLoop cfg tick decorations genomes rand eggs0Len cap idxs acc).fish.length
        = acc.fish.length := by
  intro idxs
  induction idxs with
  | nil =>
    intro acc
    simp only [reproLoop]
  | cons i rest ih =>
    intro acc
    simp only [reproLoop]
    split
    · exact ih acc
    split
    · exact ih acc
    split
    · exact ih acc
    split
    · exact ih acc
    split
    · exact ih acc
    split
    · exact ih acc
    split
    · exact ih acc
    split
    · rw [reproAccPush_fish_length]
    · rw [ih, reproAccPush_fish_length]

/-- The reproduction loop keeps `fish + pre-existing eggs + new eggs`
within the effective capacity, provided the total was strictly below it
at entry. -/
theorem reproLoop_capacity (cfg : SimulationConfig) (tick : ℕ)
    (decorations : List Decoration) (genomes : GenomeTable)
    (rand : ℕ → PairRand) (eggs0Len cap : ℕ) :
    ∀ (idxs : List ℕ) (acc : ReproAcc),
      acc.fish.length + eggs0Len + acc.newEggs.length < cap →
      (reproLoop cfg tick decorations genomes rand eggs0Len cap idxs acc).fish.length
          + eggs0Len
          + (reproLoop cfg tick decorations genomes rand eggs0Len cap idxs acc).newEggs.length
        ≤ cap := by
  intro idxs
  induction idxs with
  | nil =>
    intro acc hacc
    simp only [reproLoop]
    omega
  | cons i rest ih =>
    intro acc hacc
    simp only [reproLoop]
    split
    · exact ih acc hacc
    split
    · exact ih acc hacc
    split
    · exact ih acc hacc
    split
    · exact ih acc hacc
    split
    · exact ih acc hacc
    split
    · exact ih acc hacc
    split
    · exact ih acc hacc
    split
    · -- capacity reached after this push: the loop breaks here
      rw [reproAccPush_fish_length, reproAccPush_newEggs_length]
      omega
    · -- still below capacity: recurse on the pushed accumulator
      rename_i hlt
      rw [not_le, reproAccPush_fish_length, reproAccPush_newEggs_length] at hlt
      apply ih
      rw [reproAccPush_fish_length, reproAccPush_newEggs_length]
      omega

/-- C1 amended: provided the population plus pending eggs is strictly
below the effective carrying capacity when the reproduction step
begins, the total never exceeds the capacity immediately after the
step.  (The entry guard only counts fish, so when the pending eggs
already bring the pre-step total to or above the capacity, one more egg
can still be laid — see the counterexample.) -/
theorem processReproduction_capacity (st : EcoState) (fish : List Fish)
    (genomes : GenomeTable) (cfg : SimulationConfig) (tick : ℕ)
    (rand : ℕ → PairRand) (gCtr eCtr : ℕ)
    (hpre : fish.length + st.eggs.length < effectiveCapacity cfg st.water_quality) :
    (processReproduction st fish genomes cfg tick rand gCtr eCtr).2.1.length
      + (processReproduction st fish genomes cfg tick rand gCtr eCtr).1.eggs.length
      ≤ effectiveCapacity cfg st.water_quality := by
  simp only [processReproduction]
  by_cases hguard : fish.length ≥ effectiveCapacity cfg st.water_quality
  · rw [if_pos hguard]
    omega
  · rw [if_neg hguard]
    have r1 := reproLoop_capacity cfg tick st.decorations genomes rand
      st.eggs.length (effectiveCapacity cfg st.water_quality)
      (List.range fish.length)
      { fish := fish, reproduced := [], newEggs := []
        nextGenomeId := gCtr, nextEggId := eCtr }
      (by simpa using hpre)
    simp only [List.length_append, List.length_map]
    omega

/-- A fish mid-courtship with partner id 2, bound to genome 1. -/
def fishCourtA : Fish :=
  { fishNew 1 1 30 30 0 0 with
      behavior := .Courting, courting_timer := 90, courting_partner := some 2 }

/-- A fish mid-courtship with partner id 1, bound to genome 2. -/
def fishCourtB : Fish :=
  { fishNew 2 2 50 30 0 0 with
      behavior := .Courting, courting_timer := 90, courting_partner := some 1 }

/-- A genome table binding ids 1 and 2 to an opposite-sex pair. -/
def tableCourtPair : GenomeTable := [(1, genomeParentA), (2, genomeParentB)]

/-- Six-slot base capacity; at water quality 1/2 it halves to 3 fish. -/
def cfgSmallCap : SimulationConfig := { defaultConfig with base_carrying_capacity := 6 }

/-- A pre-existing pending egg occupying one capacity slot. -/
def pendingEgg : Egg :=
  { id := 3, genome_id := 77, x := 10, y := 760, age := 5
    parent_a_genome := 1, parent_b_genome := 2 }

/-- Manager state with one pending egg at water quality 1/2. -/
def stateOneEgg : EcoState :=
  { eggs := [pendingEgg], water_quality := 1/2, species := [], events := []
    decorations := [], next_species_id := 1 }

/-- The RNG oracle letting the single pair reproduce (fertility roll 0). -/
def randFertile : ℕ → PairRand := fun _ => { fertilityRoll := 0, inh := inheritRandEx }

/-- C1 counterexample: two courting fish and one pending egg, effective
capacity 3 = ⌊6 · 0.5⌋.  Before the step, fish + eggs = 3 = capacity;
the entry guard passes because it counts only the 2 fish, and one more
egg is laid: afterwards fish + eggs = 4 > 3, violating the claimed
invariant. -/
theorem processReproduction_capacity_counterexample :
    effectiveCapacity cfgSmallCap stateOneEgg.water_quality = 3
    ∧ [fishCourtA, fishCourtB].length + stateOneEgg.eggs.length = 3
    ∧ (processReproduction stateOneEgg [fishCourtA, fishCourtB] tableCourtPair
          cfgSmallCap 100 randFertile 50 60).2.1.length
        + (processReproduction stateOneEgg [fishCourtA, fishCourtB] tableCourtPair
            cfgSmallCap 100 randFertile 50 60).1.eggs.length = 4
    ∧ ¬ ((4 : ℕ) ≤ 3) := by
  have hcap : effectiveCapacity cfgSmallCap stateOneEgg.water_quality = 3 := by
    have h6 : (cfgSmallCap.base_carrying_capacity : ℚ) * stateOneEgg.water_quality = 3 := by
      norm_num [cfgSmallCap, stateOneEgg, defaultConfig]
    unfold effectiveCapacity
    rw [h6]
    norm_num
    rfl
  have hc1 : ¬ (¬ (([fishCourtA, fishCourtB].getD 0 (default : Fish)).behavior
        = BehaviorState.Courting)
      ∨ ([fishCourtA, fishCourtB].getD 0 (default : Fish)).courting_timer < 90) := by
    decide
  have hpart : ([fishCourtA, fishCourtB].getD 0 (default : Fish)).courting_partner
      = some 2 := rfl
  have hcont : ¬ ((([] : List ℕ).contains
        (([fishCourtA, fishCourtB].getD 0 (default : Fish)).id) = true)
      ∨ (([] : List ℕ).contains 2 = true)) := by decide
  have hfind : [fishCourtA, fishCourtB].findIdx? (fun f => f.id == 2) = some 1 := rfl
  have hga : lookupG tableCourtPair
      (([fishCourtA, fishCourtB].getD 0 (default : Fish)).genome_id)
      = some genomeParentA := rfl
  have hgb : lookupG tableCourtPair
      (([fishCourtA, fishCourtB].getD 1 (default : Fish)).genome_id)
      = some genomeParentB := rfl
  have hfert : ¬ ((randFertile 0).fertilityRoll
      > (genomeParentA.fertility + genomeParentB.fertility) / 2 * cfgSmallCap.fertility_scale) := by
    norm_num [randFertile, genomeParentA, genomeParentB, cfgSmallCap, defaultConfig]
  have hpushlen : (reproAccPush cfgSmallCap 100 [] randFertile
        { fish := [fishCourtA, fishCourtB], reproduced := [], newEggs := []
          nextGenomeId := 50, nextEggId := 60 } 0 1 2 genomeParentA genomeParentB).fish.length = 2
      ∧ (reproAccPush cfgSmallCap 100 [] randFertile
        { fish := [fishCourtA, fishCourtB], reproduced := [], newEggs := []
          nextGenomeId := 50, nextEggId := 60 } 0 1 2 genomeParentA genomeParentB).newEggs.length = 1 := by
    constructor <;> simp [reproAccPush, List.length_set]
  have hbreak : (reproAccPush cfgSmallCap 100 [] randFertile
        { fish := [fishCourtA, fishCourtB], reproduced := [], newEggs := []
          nextGenomeId := 50, nextEggId := 60 } 0 1 2 genomeParentA genomeParentB).fish.length
      + 1
      + (reproAccPush cfgSmallCap 100 [] randFertile
        { fish := [fishCourtA, fishCourtB], reproduced := [], newEggs := []
          nextGenomeId := 50, nextEggId := 60 } 0 1 2 genomeParentA genomeParentB).newEggs.length
      ≥ 3 := by
    rw [hpushlen.1, hpushlen.2]
    omega
  have hloop : reproLoop cfgSmallCap 100 [] tableCourtPair randFertile 1 3 [0, 1]
        { fish := [fishCourtA, fishCourtB], reproduced := [], newEggs := []
          nextGenomeId := 50, nextEggId := 60 }
      = reproAccPush cfgSmallCap 100 [] randFertile
        { fish := [fishCourtA, fishCourtB], reproduced := [], newEggs := []
          nextGenomeId := 50, nextEggId := 60 } 0 1 2 genomeParentA genomeParentB := by
    simp only [reproLoop, hc1, hpart, hcont, hfind, hga, hgb, hfert, hbreak,
      ite_true, ite_false, if_true, if_false, not_false_eq_true, ge_iff_le]
  have hguard : ¬ ([fishCourtA, fishCourtB].length
      ≥ effectiveCapacity cfgSmallCap stateOneEgg.water_quality) := by
    rw [hcap]
    norm_num
  have hrange : List.range ([fishCourtA, fishCourtB].length) = [0, 1] := rfl
  refine ⟨hcap, by simp [stateOneEgg], ?_, by norm_num⟩
  simp only [processReproduction, hrange, hcap]
  rw [if_neg (by rw [hcap] at hguard; exact hguard)]
  have heggs1 : stateOneEgg.eggs.length = 1 := rfl
  have hdec : stateOneEgg.decorations = [] := rfl
  rw [heggs1, hdec, hloop]
  simp only [List.length_append, List.length_map, hpushlen.1, hpushlen.2, heggs1]

/-- Witness for the amended C1 invariant: with no fish and a single
pending egg, the pre-state total 1 is strictly below the capacity 3 and
the post-state total stays within it. -/
theorem processReproduction_capacity_witness :
    ([] : List Fish).length + stateOneEgg.eggs.length
        < effectiveCapacity cfgSmallCap stateOneEgg.water_quality
    ∧ (processReproduction stateOneEgg [] tableCourtPair cfgSmallCap 100
          randFertile 50 60).2.1.length
        + (processReproduction stateOneEgg [] tableCourtPair cfgSmallCap 100
            randFertile 50 60).1.eggs.length
        ≤ effectiveCapacity cfgSmallCap stateOneEgg.water_quality := by
  have hcap : effectiveCapacity cfgSmallCap stateOneEgg.water_quality = 3 := by
    have h6 : (cfgSmallCap.base_carrying_capacity : ℚ) * stateOneEgg.water_quality = 3 := by
      norm_num [cfgSmallCap, stateOneEgg, defaultConfig]
    unfold effectiveCapacity
    rw [h6]
    norm_num
    rfl
  have hpre : ([] : List Fish).length + stateOneEgg.eggs.length
      < effectiveCapacity cfgSmallCap stateOneEgg.water_quality := by
    rw [hcap]
    norm_num [stateOneEgg]
  exact ⟨hpre,
    processReproduction_capacity stateOneEgg [] tableCourtPair cfgSmallCap 100
      randFertile 50 60 hpre⟩

-- ───────────────────────────── Claim C9 ─────────────────────────────────────

/-- Cluster-C genome: hue 20, solid pattern, all other traits those of
`genomeParentA`. -/
def genomeHue20 : FishGenome := { genomeParentA with id := 101, base_hue := 20 }

/-- Cluster-D genome: hue 45 and a bicolor pattern.  The pattern
mismatch alone contributes 2.5 to the genome distance, so the two
clusters never merge under the default threshold 2.5. -/
def genomeHue45 : FishGenome :=
  { genomeParentA with id := 102, base_hue := 45, pattern := .Bicolor (1/2) }

/-- Six living fish, three per genome. -/
def fishSixC9 : List Fish :=
  [fishNew 1 101 0 0 0 0, fishNew 2 101 0 0 0 0, fishNew 3 101 0 0 0 0,
   fishNew 4 102 0 0 0 0, fishNew 5 102 0 0 0 0, fishNew 6 102 0 0 0 0]

/-- The genome table binding the two genome ids. -/
def tableC9 : GenomeTable := [(101, genomeHue20), (102, genomeHue45)]

/-- The living-genome list `detect_species` collects from the six fish. -/
def livingC9 : List FishGenome :=
  [genomeHue20, genomeHue20, genomeHue20, genomeHue45, genomeHue45, genomeHue45]

/-- Existing species T with centroid hue 55: within 30° of cluster D
(hue 45) and, once it has absorbed D, within 30° of cluster C too. -/
def speciesT : Species :=
  { id := 1, name := none, description := none, discovered_at_tick := 0
    extinct_at_tick := none, centroid_hue := 55, centroid_speed := 1
    centroid_size := 1, centroid_pattern := "Solid", member_count := 3
    member_genome_ids := [] }

/-- Existing species S with centroid hue 20, the current match of
cluster C. -/
def speciesS : Species := { speciesT with id := 2, centroid_hue := 20 }

/-- Manager state holding the two species and nothing else. -/
def stateC9 : EcoState :=
  { eggs := [], water_quality := 1, species := [speciesT, speciesS], events := []
    decorations := [], next_species_id := 3 }

/-- A trigonometric oracle under which the circular mean of a
constant-hue three-member cluster is that hue exactly (as it is for the
real sine/cosine/atan2): sine is read as the identity, cosine as 0, and
`atan2D (3·h) 0 = h`.  Only the two constant-hue centroids 20 and 45 are
ever consulted, and the divergence below survives any perturbation of
them smaller than 5°, far above f32 rounding. -/
def trigC9 : TrigOracle :=
  { sinD := fun x => x, cosD := fun _ => 0, atan2D := fun s _ => s / 3 }

/-- Species T after the first detection pass: it has absorbed cluster D
and its centroid hue moved from 55 to 45. -/
def speciesT1 : Species :=
  { speciesT with member_count := 3, member_genome_ids := [102, 102, 102], centroid_hue := 45, centroid_speed := 1, centroid_size := 1 }

/-- Species S after the first detection pass: it keeps cluster C and its
centroid hue stays 20. -/
def speciesS1 : Species :=
  { speciesS with member_count := 3, member_genome_ids := [101, 101, 101], centroid_hue := 20, centroid_speed := 1, centroid_size := 1 }

/-- The manager state after the first detection pass: both species
matched, no events. -/
def stateC9run1 : EcoState :=
  { eggs := [], water_quality := 1, species := [speciesT1, speciesS1]
    events := [], decorations := [], next_species_id := 3 }

/-- Species T during the second pass, after cluster C (hue 20, within
30° of T's new centroid 45) has been captured by T. -/
def speciesT2 : Species :=
  { speciesT1 with member_count := 3, member_genome_ids := [101, 101, 101], centroid_hue := 20, centroid_speed := 1, centroid_size := 1 }

/-- Species T at the end of the second pass, after it has also
re-absorbed cluster D. -/
def speciesT3 : Species :=
  { speciesT2 with member_count := 3, member_genome_ids := [102, 102, 102], centroid_hue := 45, centroid_speed := 1, centroid_size := 1 }

/-- Species S marked extinct by the second pass: both clusters matched
T, so S is no longer matched. -/
def speciesS1x : Species := { speciesS1 with extinct_at_tick := some 300 }

/-- The manager state after the second detection pass: S extinct and an
`Extinction` event emitted, although the population never changed. -/
def stateC9run2 : EcoState :=
  { eggs := [], water_quality := 1, species := [speciesT3, speciesS1x]
    events := [SimEvent.Extinction 2], decorations := [], next_species_id := 3 }

theorem genomeDistance_h20_h20 : genomeDistance genomeHue20 genomeHue20 < 5/2 := by
  norm_num [genomeDistance, hueDistance_self, patternDistance_self, sub_self, abs_zero]

theorem genomeDistance_h45_h45 : genomeDistance genomeHue45 genomeHue45 < 5/2 := by
  norm_num [genomeDistance, hueDistance_self, patternDistance_self, sub_self, abs_zero]

theorem genomeDistance_h20_h45 : ¬ genomeDistance genomeHue20 genomeHue45 < 5/2 := by
  have habs : |(20 : ℚ) - 45| = 25 := by
    rw [abs_sub_comm, abs_of_nonneg (by norm_num : (0:ℚ) ≤ (45:ℚ) - 20)]
    norm_num
  have hhue : hueDistance 20 45 = 25 := by
    rw [hueDistance, habs]
    norm_num [min_def]
  have hpat : patternDistance PatternGene.Solid (PatternGene.Bicolor (1/2)) = 1 := by
    norm_num [patternDistance, PatternGene.typeIndex]
  simp only [genomeDistance, genomeHue20, genomeHue45, genomeParentA]
  rw [hhue, hpat]
  norm_num

/-- One union operation of the clustering loop, named so its pure-ℕ
evaluations can be stated on their own. -/
def unionStep (cluster : List ℕ) (i j : ℕ) : List ℕ :=
  let ci := findRoot cluster cluster.length i
  let cj := findRoot cluster cluster.length j
  if ci ≠ cj then cluster.set ci cj else cluster

theorem unionPass_eq_steps (living : List FishGenome) (t : ℚ) :
    unionPass living t = (List.range living.length).foldl (fun cluster i =>
      (List.range living.length).foldl (fun cluster j =>
        if i < j ∧ genomeDistance (living.getD i default) (living.getD j default) < t then
          unionStep cluster i j
        else cluster) cluster) (List.range living.length) := rfl

theorem unionPassC9_eval : unionPass livingC9 (5/2) = [1, 2, 2, 4, 5, 5] := by
  have hs01 : unionStep [0, 1, 2, 3, 4, 5] 0 1 = [1, 1, 2, 3, 4, 5] := rfl
  have hs02 : unionStep [1, 1, 2, 3, 4, 5] 0 2 = [1, 2, 2, 3, 4, 5] := rfl
  have hs12 : unionStep [1, 2, 2, 3, 4, 5] 1 2 = [1, 2, 2, 3, 4, 5] := rfl
  have hs34 : unionStep [1, 2, 2, 3, 4, 5] 3 4 = [1, 2, 2, 4, 4, 5] := rfl
  have hs35 : unionStep [1, 2, 2, 4, 4, 5] 3 5 = [1, 2, 2, 4, 5, 5] := rfl
  have hs45 : unionStep [1, 2, 2, 4, 5, 5] 4 5 = [1, 2, 2, 4, 5, 5] := rfl
  have hrange : List.range (livingC9.length) = [0, 1, 2, 3, 4, 5] := rfl
  rw [unionPass_eq_steps, hrange]
  simp only [livingC9, List.getD_cons_zero, List.getD_cons_succ, List.foldl_cons,
    List.foldl_nil]
  simp [genomeDistance_h20_h20, genomeDistance_h45_h45, genomeDistance_h20_h45,
    hs01, hs02, hs12, hs34, hs35, hs45]

theorem collectC9_eval :
    (collectClusters [1, 2, 2, 4, 5, 5] 6).filter
      (fun c => c.length ≥ defaultConfig.species_min_members) = [[0, 1, 2], [3, 4, 5]] := rfl

theorem centroidC9_left : clusterCentroid trigC9 livingC9 [0, 1, 2] = (20, 1, 1) := by
  simp only [clusterCentroid, trigC9, livingC9, genomeHue20, genomeHue45, genomeParentA,
    List.foldl_cons, List.foldl_nil, List.getD_cons_zero, List.getD_cons_succ,
    List.length_cons, List.length_nil, Prod.mk.injEq]
  refine ⟨?_, ?_, ?_⟩
  · rw [ratRemEuclid_eq_self] <;> norm_num
  · norm_num
  · norm_num

theorem centroidC9_right : clusterCentroid trigC9 livingC9 [3, 4, 5] = (45, 1, 1) := by
  simp only [clusterCentroid, trigC9, livingC9, genomeHue20, genomeHue45, genomeParentA,
    List.foldl_cons, List.foldl_nil, List.getD_cons_zero, List.getD_cons_succ,
    List.length_cons, List.length_nil, Prod.mk.injEq]
  refine ⟨?_, ?_, ?_⟩
  · rw [ratRemEuclid_eq_self] <;> norm_num
  · norm_num
  · norm_num

theorem matchC9_run1_left :
    matchCluster 20 1 1 [101, 101, 101] 3 [speciesT, speciesS]
      = ([speciesT, speciesS1], some 2) := by
  have habs : |(20:ℚ) - 55| = 35 := by
    rw [abs_sub_comm, abs_of_nonneg (by norm_num : (0:ℚ) ≤ (55:ℚ) - 20)]
    norm_num
  have h55 : ¬ (min |(20:ℚ) - 55| (360 - |(20:ℚ) - 55|) < 30
      ∧ |(1:ℚ) - 1| < 1/2 ∧ |(1:ℚ) - 1| < 1/2) := by
    rw [habs]
    norm_num [min_def]
  have h20 : min |(20:ℚ) - 20| (360 - |(20:ℚ) - 20|) < 30
      ∧ |(1:ℚ) - 1| < 1/2 ∧ |(1:ℚ) - 1| < 1/2 := by
    norm_num [min_def]
  simp [matchCluster, speciesT, speciesS, speciesS1, h55, h20]
  rw [habs]
  norm_num

theorem matchC9_run1_right :
    matchCluster 45 1 1 [102, 102, 102] 3 [speciesT, speciesS1]
      = ([speciesT1, speciesS1], some 1) := by
  have h10 : min |(45:ℚ) - 55| (360 - |(45:ℚ) - 55|) < 30
      ∧ |(1:ℚ) - 1| < 1/2 ∧ |(1:ℚ) - 1| < 1/2 := by
    have habs : |(45:ℚ) - 55| = 10 := by
      rw [abs_sub_comm, abs_of_nonneg (by norm_num : (0:ℚ) ≤ (55:ℚ) - 45)]
      norm_num
    rw [habs]
    norm_num [min_def]
  simp [matchCluster, speciesT, speciesT1, h10]

theorem matchC9_run2_left :
    matchCluster 20 1 1 [101, 101, 101] 3 [speciesT1, speciesS1]
      = ([speciesT2, speciesS1], some 1) := by
  have h25 : min |(20:ℚ) - 45| (360 - |(20:ℚ) - 45|) < 30
      ∧ |(1:ℚ) - 1| < 1/2 ∧ |(1:ℚ) - 1| < 1/2 := by
    have habs : |(20:ℚ) - 45| = 25 := by
      rw [abs_sub_comm, abs_of_nonneg (by norm_num : (0:ℚ) ≤ (45:ℚ) - 20)]
      norm_num
    rw [habs]
    norm_num [min_def]
  simp [matchCluster, speciesT, speciesT1, speciesT2, h25]

theorem matchC9_run2_right :
    matchCluster 45 1 1 [102, 102, 102] 3 [speciesT2, speciesS1]
      = ([speciesT3, speciesS1], some 1) := by
  have h25 : min |(45:ℚ) - 20| (360 - |(45:ℚ) - 20|) < 30
      ∧ |(1:ℚ) - 1| < 1/2 ∧ |(1:ℚ) - 1| < 1/2 := by
    have habs : |(45:ℚ) - 20| = 25 := by
      rw [abs_of_nonneg (by norm_num : (0:ℚ) ≤ (45:ℚ) - 20)]
      norm_num
    rw [habs]
    norm_num [min_def]
  simp [matchCluster, speciesT, speciesT1, speciesT2, speciesT3, h25]

theorem detectC9_run1 :
    detectSpecies trigC9 stateC9 fishSixC9 tableC9 defaultConfig 300 = stateC9run1 := by
  have hlv : fishSixC9.filterMap (fun f => lookupG tableC9 f.genome_id) = livingC9 := rfl
  have hflen : fishSixC9.length = 6 := rfl
  have hllen : livingC9.length = 6 := rfl
  have hthr : defaultConfig.species_threshold = 5/2 := rfl
  have h63 : ¬ ((6:ℕ) < 3) := by norm_num
  have hid0 : ((livingC9[0]?).getD default).id = 101 := rfl
  have hid1 : ((livingC9[1]?).getD default).id = 101 := rfl
  have hid2 : ((livingC9[2]?).getD default).id = 101 := rfl
  have hid3 : ((livingC9[3]?).getD default).id = 102 := rfl
  have hid4 : ((livingC9[4]?).getD default).id = 102 := rfl
  have hid5 : ((livingC9[5]?).getD default).id = 102 := rfl
  have hT1x : speciesT1.extinct_at_tick = none := rfl
  have hS1x : speciesS1.extinct_at_tick = none := rfl
  have hT1id : speciesT1.id = 1 := rfl
  have hS1id : speciesS1.id = 2 := rfl
  have hc1 : ([2, 1] : List ℕ).contains 1 = true := rfl
  have hc2 : ([2, 1] : List ℕ).contains 2 = true := rfl
  simp only [detectSpecies, hlv, hflen, hllen, hthr]
  rw [if_neg h63, if_neg h63]
  rw [unionPassC9_eval, collectC9_eval]
  simp [centroidC9_left, centroidC9_right, hid0, hid1, hid2, hid3, hid4, hid5,
    matchC9_run1_left, matchC9_run1_right, hT1x, hS1x, hT1id, hS1id, hc1, hc2,
    stateC9, stateC9run1]

theorem detectC9_run2 :
    detectSpecies trigC9 stateC9run1 fishSixC9 tableC9 defaultConfig 300 = stateC9run2 := by
  have hlv : fishSixC9.filterMap (fun f => lookupG tableC9 f.genome_id) = livingC9 := rfl
  have hflen : fishSixC9.length = 6 := rfl
  have hllen : livingC9.length = 6 := rfl
  have hthr : defaultConfig.species_threshold = 5/2 := rfl
  have h63 : ¬ ((6:ℕ) < 3) := by norm_num
  have hid0 : ((livingC9[0]?).getD default).id = 101 := rfl
  have hid1 : ((livingC9[1]?).getD default).id = 101 := rfl
  have hid2 : ((livingC9[2]?).getD default).id = 101 := rfl
  have hid3 : ((livingC9[3]?).getD default).id = 102 := rfl
  have hid4 : ((livingC9[4]?).getD default).id = 102 := rfl
  have hid5 : ((livingC9[5]?).getD default).id = 102 := rfl
  have hT3x : speciesT3.extinct_at_tick = none := rfl
  have hS1x : speciesS1.extinct_at_tick = none := rfl
  have hT3id : speciesT3.id = 1 := rfl
  have hS1id : speciesS1.id = 2 := rfl
  have hc1 : ([1, 1] : List ℕ).contains 1 = true := rfl
  have hc2 : ([1, 1] : List ℕ).contains 2 = false := rfl
  simp only [detectSpecies, hlv, hflen, hllen, hthr]
  rw [if_neg h63, if_neg h63]
  rw [unionPassC9_eval, collectC9_eval]
  simp [centroidC9_left, centroidC9_right, hid0, hid1, hid2, hid3, hid4, hid5,
    matchC9_run2_left, matchC9_run2_right, hT3x, hS1x, hT3id, hS1id, hc1, hc2,
    stateC9run1, stateC9run2, speciesS1x]

/-- C9: species detection is NOT idempotent within a tick.  On an
unchanged population of six fish in two clusters (hues 20 and 45) with
two existing species S (hue 20) and T (hue 55), the first pass matches
cluster 20 to S and cluster 45 to T (moving T's centroid to 45) and
emits no event; the second pass, seeing T's centroid now at 45, matches
BOTH clusters to T in turn, leaves S unmatched, marks S extinct and
emits an `Extinction` event — a different species set and an extra
event, contradicting the claimed idempotence. -/
theorem detectSpecies_second_run_extinction :
    (detectSpecies trigC9 stateC9 fishSixC9 tableC9 defaultConfig 300).events = []
    ∧ (detectSpecies trigC9 (detectSpecies trigC9 stateC9 fishSixC9 tableC9 defaultConfig 300)
        fishSixC9 tableC9 defaultConfig 300).events = [SimEvent.Extinction 2]
    ∧ (detectSpecies trigC9 (detectSpecies trigC9 stateC9 fishSixC9 tableC9 defaultConfig 300)
          fishSixC9 tableC9 defaultConfig 300).species.map Species.extinct_at_tick
        ≠ (detectSpecies trigC9 stateC9 fishSixC9 tableC9 defaultConfig 300).species.map
            Species.extinct_at_tick := by
  rw [detectC9_run1, detectC9_run2]
  refine ⟨rfl, rfl, ?_⟩
  decide

end DeepTank
